import Mathlib

/-!
A shallow embedding of the qactpmdgateway market-data gateway core
(src/src/market_data_server.cpp, src/src/subscription_dispatcher.cpp
together with the headers market_data_server.h, subscription_dispatcher.h,
multi_ctp_config.h), with theorems about the quote diff engine, the
seqlock quote cache, the CTP connection subscription operations, the
subscription dispatcher and the client frame handler.

Modelling conventions:
- C++ double fields are modelled as rationals; C round() agrees with
  Mathlib round on the nonnegative arguments the gateway rounds (the
  validity filter admits only values above 1e-6).
- C int / int64_t fields are modelled as integers, uint64_t as naturals.
- Fixed-size C arrays double[10] are unrolled into ten named fields;
  index i of the C array is the field numbered i+1, matching the JSON
  keys ask_price1 .. ask_price10 produced from ASK_PRICE_KEYS etc.
- Sequential C++ statements are composed functionally; a stateful
  function returns its updated state together with its C++ return value
  and the list of upstream (CTP) wire calls it issued.
- A JSON object under construction is modelled as the record of its
  optional members plus the ordered list of emitted keys.
-/

namespace MDGW

/-- Scalar JSON values emitted by the rapidjson writer. -/
inductive JVal where
  | str (s : String)
  | num (q : ℚ)
  | intVal (n : ℤ)
  | natVal (n : ℕ)
  | nullVal
  | boolVal (b : Bool)
deriving DecidableEq

/-- MarketDataStruct from market_data_server.h.  The double[10] depth
arrays are unrolled into ten fields each.  The source field named open
is rendered open_price because open is a Lean keyword. -/
structure MarketDataStruct where
  instrument_id : String
  datetime : String
  timestamp : ℕ
  ask_price1 : ℚ
  ask_price2 : ℚ
  ask_price3 : ℚ
  ask_price4 : ℚ
  ask_price5 : ℚ
  ask_price6 : ℚ
  ask_price7 : ℚ
  ask_price8 : ℚ
  ask_price9 : ℚ
  ask_price10 : ℚ
  ask_volume1 : ℤ
  ask_volume2 : ℤ
  ask_volume3 : ℤ
  ask_volume4 : ℤ
  ask_volume5 : ℤ
  ask_volume6 : ℤ
  ask_volume7 : ℤ
  ask_volume8 : ℤ
  ask_volume9 : ℤ
  ask_volume10 : ℤ
  bid_price1 : ℚ
  bid_price2 : ℚ
  bid_price3 : ℚ
  bid_price4 : ℚ
  bid_price5 : ℚ
  bid_price6 : ℚ
  bid_price7 : ℚ
  bid_price8 : ℚ
  bid_price9 : ℚ
  bid_price10 : ℚ
  bid_volume1 : ℤ
  bid_volume2 : ℤ
  bid_volume3 : ℤ
  bid_volume4 : ℤ
  bid_volume5 : ℤ
  bid_volume6 : ℤ
  bid_volume7 : ℤ
  bid_volume8 : ℤ
  bid_volume9 : ℤ
  bid_volume10 : ℤ
  last_price : ℚ
  highest : ℚ
  lowest : ℚ
  open_price : ℚ
  close : ℚ
  average : ℚ
  volume : ℤ
  amount : ℚ
  open_interest : ℤ
  settlement : ℚ
  upper_limit : ℚ
  lower_limit : ℚ
  pre_open_interest : ℤ
  pre_settlement : ℚ
  pre_close : ℚ
deriving DecidableEq

/-- The CTP tick payload CThostFtdcDepthMarketDataField, restricted to the
fields build_market_data_struct reads.  OpenInterest and PreOpenInterest
are doubles in CTP and cast to int64_t by the gateway. -/
structure DepthMarketDataField where
  TradingDay : String
  UpdateTime : String
  UpdateMillisec : ℕ
  AskPrice1 : ℚ
  AskPrice2 : ℚ
  AskPrice3 : ℚ
  AskPrice4 : ℚ
  AskPrice5 : ℚ
  AskVolume1 : ℤ
  AskVolume2 : ℤ
  AskVolume3 : ℤ
  AskVolume4 : ℤ
  AskVolume5 : ℤ
  BidPrice1 : ℚ
  BidPrice2 : ℚ
  BidPrice3 : ℚ
  BidPrice4 : ℚ
  BidPrice5 : ℚ
  BidVolume1 : ℤ
  BidVolume2 : ℤ
  BidVolume3 : ℤ
  BidVolume4 : ℤ
  BidVolume5 : ℤ
  LastPrice : ℚ
  HighestPrice : ℚ
  LowestPrice : ℚ
  OpenPrice : ℚ
  ClosePrice : ℚ
  Volume : ℤ
  Turnover : ℚ
  OpenInterest : ℚ
  SettlementPrice : ℚ
  UpperLimitPrice : ℚ
  LowerLimitPrice : ℚ
  PreOpenInterest : ℚ
  PreSettlementPrice : ℚ
  PreClosePrice : ℚ
deriving DecidableEq

/-- Truncation toward zero: the semantics of static_cast<int64_t> applied
to a double. -/
def truncQ (q : ℚ) : ℤ := if 0 ≤ q then ⌊q⌋ else ⌈q⌉

/-- The datetime string built character by character at the top of
build_market_data_struct: "YYYY-MM-DD " from TradingDay when TradingDay
starts with a digit, then "HH:MM:SS.mmm" from UpdateTime and
UpdateMillisec when UpdateTime is nonempty. -/
def buildDatetime (td ut : String) (ms : ℕ) : String :=
  (if (td.toList.headD ' ').isDigit then
      String.mk (td.toList.take 4) ++ "-" ++ String.mk ((td.toList.drop 4).take 2) ++ "-"
        ++ String.mk ((td.toList.drop 6).take 2) ++ " "
    else "")
  ++ (if ut ≠ "" then
      String.mk (ut.toList.take 8) ++ "." ++ toString (ms / 100 % 10) ++ toString (ms / 10 % 10)
        ++ toString (ms % 10)
    else "")

/-- MarketDataServer::build_market_data_struct (market_data_server.cpp
lines 315-490).  Each price field is guarded by the inline validity test
v > 1e-6 && v < 1e300 of the source and rounded to two decimals; the
depth volume at a level is stored only when the price at that level
passes the test.  Depth levels 6..10 stay zero; average is never
assigned (the struct is memset to zero). -/
def build_market_data_struct (p : DepthMarketDataField) (display_instrument : String)
    (cur_time : ℕ) : MarketDataStruct where
  instrument_id := String.mk (display_instrument.toList.take 31)
  datetime := buildDatetime p.TradingDay p.UpdateTime p.UpdateMillisec
  timestamp := cur_time
  ask_price1 := if 1/1000000 < p.AskPrice1 ∧ p.AskPrice1 < 10^300 then
      (round (p.AskPrice1 * 100) : ℚ) / 100 else 0
  ask_price2 := if 1/1000000 < p.AskPrice2 ∧ p.AskPrice2 < 10^300 then
      (round (p.AskPrice2 * 100) : ℚ) / 100 else 0
  ask_price3 := if 1/1000000 < p.AskPrice3 ∧ p.AskPrice3 < 10^300 then
      (round (p.AskPrice3 * 100) : ℚ) / 100 else 0
  ask_price4 := if 1/1000000 < p.AskPrice4 ∧ p.AskPrice4 < 10^300 then
      (round (p.AskPrice4 * 100) : ℚ) / 100 else 0
  ask_price5 := if 1/1000000 < p.AskPrice5 ∧ p.AskPrice5 < 10^300 then
      (round (p.AskPrice5 * 100) : ℚ) / 100 else 0
  ask_price6 := 0
  ask_price7 := 0
  ask_price8 := 0
  ask_price9 := 0
  ask_price10 := 0
  ask_volume1 := if 1/1000000 < p.AskPrice1 ∧ p.AskPrice1 < 10^300 then p.AskVolume1 else 0
  ask_volume2 := if 1/1000000 < p.AskPrice2 ∧ p.AskPrice2 < 10^300 then p.AskVolume2 else 0
  ask_volume3 := if 1/1000000 < p.AskPrice3 ∧ p.AskPrice3 < 10^300 then p.AskVolume3 else 0
  ask_volume4 := if 1/1000000 < p.AskPrice4 ∧ p.AskPrice4 < 10^300 then p.AskVolume4 else 0
  ask_volume5 := if 1/1000000 < p.AskPrice5 ∧ p.AskPrice5 < 10^300 then p.AskVolume5 else 0
  ask_volume6 := 0
  ask_volume7 := 0
  ask_volume8 := 0
  ask_volume9 := 0
  ask_volume10 := 0
  bid_price1 := if 1/1000000 < p.BidPrice1 ∧ p.BidPrice1 < 10^300 then
      (round (p.BidPrice1 * 100) : ℚ) / 100 else 0
  bid_price2 := if 1/1000000 < p.BidPrice2 ∧ p.BidPrice2 < 10^300 then
      (round (p.BidPrice2 * 100) : ℚ) / 100 else 0
  bid_price3 := if 1/1000000 < p.BidPrice3 ∧ p.BidPrice3 < 10^300 then
      (round (p.BidPrice3 * 100) : ℚ) / 100 else 0
  bid_price4 := if 1/1000000 < p.BidPrice4 ∧ p.BidPrice4 < 10^300 then
      (round (p.BidPrice4 * 100) : ℚ) / 100 else 0
  bid_price5 := if 1/1000000 < p.BidPrice5 ∧ p.BidPrice5 < 10^300 then
      (round (p.BidPrice5 * 100) : ℚ) / 100 else 0
  bid_price6 := 0
  bid_price7 := 0
  bid_price8 := 0
  bid_price9 := 0
  bid_price10 := 0
  bid_volume1 := if 1/1000000 < p.BidPrice1 ∧ p.BidPrice1 < 10^300 then p.BidVolume1 else 0
  bid_volume2 := if 1/1000000 < p.BidPrice2 ∧ p.BidPrice2 < 10^300 then p.BidVolume2 else 0
  bid_volume3 := if 1/1000000 < p.BidPrice3 ∧ p.BidPrice3 < 10^300 then p.BidVolume3 else 0
  bid_volume4 := if 1/1000000 < p.BidPrice4 ∧ p.BidPrice4 < 10^300 then p.BidVolume4 else 0
  bid_volume5 := if 1/1000000 < p.BidPrice5 ∧ p.BidPrice5 < 10^300 then p.BidVolume5 else 0
  bid_volume6 := 0
  bid_volume7 := 0
  bid_volume8 := 0
  bid_volume9 := 0
  bid_volume10 := 0
  last_price := if 1/1000000 < p.LastPrice ∧ p.LastPrice < 10^300 then
      (round (p.LastPrice * 100) : ℚ) / 100 else 0
  highest := if 1/1000000 < p.HighestPrice ∧ p.HighestPrice < 10^300 then
      (round (p.HighestPrice * 100) : ℚ) / 100 else 0
  lowest := if 1/1000000 < p.LowestPrice ∧ p.LowestPrice < 10^300 then
      (round (p.LowestPrice * 100) : ℚ) / 100 else 0
  open_price := if 1/1000000 < p.OpenPrice ∧ p.OpenPrice < 10^300 then
      (round (p.OpenPrice * 100) : ℚ) / 100 else 0
  close := if 1/1000000 < p.ClosePrice ∧ p.ClosePrice < 10^300 then
      (round (p.ClosePrice * 100) : ℚ) / 100 else 0
  average := 0
  volume := p.Volume
  amount := p.Turnover
  open_interest := truncQ p.OpenInterest
  settlement := if 1/1000000 < p.SettlementPrice ∧ p.SettlementPrice < 10^300 then
      (round (p.SettlementPrice * 100) : ℚ) / 100 else 0
  upper_limit := if 1/1000000 < p.UpperLimitPrice ∧ p.UpperLimitPrice < 10^300 then
      (round (p.UpperLimitPrice * 100) : ℚ) / 100 else 0
  lower_limit := if 1/1000000 < p.LowerLimitPrice ∧ p.LowerLimitPrice < 10^300 then
      (round (p.LowerLimitPrice * 100) : ℚ) / 100 else 0
  pre_open_interest := truncQ p.PreOpenInterest
  pre_settlement := if 1/1000000 < p.PreSettlementPrice ∧ p.PreSettlementPrice < 10^300 then
      (round (p.PreSettlementPrice * 100) : ℚ) / 100 else 0
  pre_close := if 1/1000000 < p.PreClosePrice ∧ p.PreClosePrice < 10^300 then
      (round (p.PreClosePrice * 100) : ℚ) / 100 else 0

/-- MarketDataServer::struct_to_json (lines 493-559): the FULL-frame JSON
object for one instrument, as the ordered member list the source emits.
Depth levels 6..10 and average are emitted as null. -/
def struct_to_json (d : MarketDataStruct) : List (String × JVal) :=
  [("instrument_id", JVal.str d.instrument_id),
   ("datetime", JVal.str d.datetime),
   ("timestamp", JVal.natVal d.timestamp),
   ("ask_price10", JVal.nullVal), ("ask_volume10", JVal.nullVal),
   ("ask_price9", JVal.nullVal), ("ask_volume9", JVal.nullVal),
   ("ask_price8", JVal.nullVal), ("ask_volume8", JVal.nullVal),
   ("ask_price7", JVal.nullVal), ("ask_volume7", JVal.nullVal),
   ("ask_price6", JVal.nullVal), ("ask_volume6", JVal.nullVal),
   ("ask_price5", JVal.num d.ask_price5), ("ask_volume5", JVal.intVal d.ask_volume5),
   ("ask_price4", JVal.num d.ask_price4), ("ask_volume4", JVal.intVal d.ask_volume4),
   ("ask_price3", JVal.num d.ask_price3), ("ask_volume3", JVal.intVal d.ask_volume3),
   ("ask_price2", JVal.num d.ask_price2), ("ask_volume2", JVal.intVal d.ask_volume2),
   ("ask_price1", JVal.num d.ask_price1), ("ask_volume1", JVal.intVal d.ask_volume1),
   ("bid_price1", JVal.num d.bid_price1), ("bid_volume1", JVal.intVal d.bid_volume1),
   ("bid_price2", JVal.num d.bid_price2), ("bid_volume2", JVal.intVal d.bid_volume2),
   ("bid_price3", JVal.num d.bid_price3), ("bid_volume3", JVal.intVal d.bid_volume3),
   ("bid_price4", JVal.num d.bid_price4), ("bid_volume4", JVal.intVal d.bid_volume4),
   ("bid_price5", JVal.num d.bid_price5), ("bid_volume5", JVal.intVal d.bid_volume5),
   ("bid_price6", JVal.nullVal), ("bid_volume6", JVal.nullVal),
   ("bid_price7", JVal.nullVal), ("bid_volume7", JVal.nullVal),
   ("bid_price8", JVal.nullVal), ("bid_volume8", JVal.nullVal),
   ("bid_price9", JVal.nullVal), ("bid_volume9", JVal.nullVal),
   ("bid_price10", JVal.nullVal), ("bid_volume10", JVal.nullVal),
   ("last_price", JVal.num d.last_price),
   ("highest", JVal.num d.highest),
   ("lowest", JVal.num d.lowest),
   ("open", JVal.num d.open_price),
   ("close", JVal.num d.close),
   ("average", JVal.nullVal),
   ("volume", JVal.intVal d.volume),
   ("amount", JVal.num d.amount),
   ("open_interest", JVal.intVal d.open_interest),
   ("settlement", JVal.num d.settlement),
   ("upper_limit", JVal.num d.upper_limit),
   ("lower_limit", JVal.num d.lower_limit),
   ("pre_open_interest", JVal.intVal d.pre_open_interest),
   ("pre_settlement", JVal.num d.pre_settlement),
   ("pre_close", JVal.num d.pre_close)]

/-- MarketDataServer::has_struct_changes (lines 562-602): true when any
compared field differs.  The comparison covers the strings, the
timestamp, the four depth arrays (memcmp over all ten levels), the ten
price scalars and the four numeric scalars; average is not compared. -/
def has_struct_changes (o n : MarketDataStruct) : Bool :=
  if o.instrument_id ≠ n.instrument_id ∨ o.datetime ≠ n.datetime ∨
      o.timestamp ≠ n.timestamp then true
  else if o.ask_price1 ≠ n.ask_price1 ∨ o.ask_price2 ≠ n.ask_price2 ∨
      o.ask_price3 ≠ n.ask_price3 ∨ o.ask_price4 ≠ n.ask_price4 ∨
      o.ask_price5 ≠ n.ask_price5 ∨ o.ask_price6 ≠ n.ask_price6 ∨
      o.ask_price7 ≠ n.ask_price7 ∨ o.ask_price8 ≠ n.ask_price8 ∨
      o.ask_price9 ≠ n.ask_price9 ∨ o.ask_price10 ≠ n.ask_price10 ∨
      o.ask_volume1 ≠ n.ask_volume1 ∨ o.ask_volume2 ≠ n.ask_volume2 ∨
      o.ask_volume3 ≠ n.ask_volume3 ∨ o.ask_volume4 ≠ n.ask_volume4 ∨
      o.ask_volume5 ≠ n.ask_volume5 ∨ o.ask_volume6 ≠ n.ask_volume6 ∨
      o.ask_volume7 ≠ n.ask_volume7 ∨ o.ask_volume8 ≠ n.ask_volume8 ∨
      o.ask_volume9 ≠ n.ask_volume9 ∨ o.ask_volume10 ≠ n.ask_volume10 ∨
      o.bid_price1 ≠ n.bid_price1 ∨ o.bid_price2 ≠ n.bid_price2 ∨
      o.bid_price3 ≠ n.bid_price3 ∨ o.bid_price4 ≠ n.bid_price4 ∨
      o.bid_price5 ≠ n.bid_price5 ∨ o.bid_price6 ≠ n.bid_price6 ∨
      o.bid_price7 ≠ n.bid_price7 ∨ o.bid_price8 ≠ n.bid_price8 ∨
      o.bid_price9 ≠ n.bid_price9 ∨ o.bid_price10 ≠ n.bid_price10 ∨
      o.bid_volume1 ≠ n.bid_volume1 ∨ o.bid_volume2 ≠ n.bid_volume2 ∨
      o.bid_volume3 ≠ n.bid_volume3 ∨ o.bid_volume4 ≠ n.bid_volume4 ∨
      o.bid_volume5 ≠ n.bid_volume5 ∨ o.bid_volume6 ≠ n.bid_volume6 ∨
      o.bid_volume7 ≠ n.bid_volume7 ∨ o.bid_volume8 ≠ n.bid_volume8 ∨
      o.bid_volume9 ≠ n.bid_volume9 ∨ o.bid_volume10 ≠ n.bid_volume10 then true
  else if o.last_price ≠ n.last_price ∨ o.highest ≠ n.highest ∨
      o.lowest ≠ n.lowest ∨ o.open_price ≠ n.open_price ∨ o.close ≠ n.close ∨
      o.settlement ≠ n.settlement ∨ o.upper_limit ≠ n.upper_limit ∨
      o.lower_limit ≠ n.lower_limit ∨ o.pre_settlement ≠ n.pre_settlement ∨
      o.pre_close ≠ n.pre_close then true
  else if o.volume ≠ n.volume ∨ o.amount ≠ n.amount ∨
      o.open_interest ≠ n.open_interest ∨
      o.pre_open_interest ≠ n.pre_open_interest then true
  else false

/-- The DIFF-frame JSON object for one instrument, as the record of its
optional members: compute_struct_diff (lines 604-691) emits the member
for a field exactly when old and new differ on it, carrying the new
value.  There is no member for average: the source never compares or
emits it in a diff. -/
structure QuoteDiff where
  instrument_id : Option String
  datetime : Option String
  timestamp : Option ℕ
  ask_price1 : Option ℚ
  ask_price2 : Option ℚ
  ask_price3 : Option ℚ
  ask_price4 : Option ℚ
  ask_price5 : Option ℚ
  ask_price6 : Option ℚ
  ask_price7 : Option ℚ
  ask_price8 : Option ℚ
  ask_price9 : Option ℚ
  ask_price10 : Option ℚ
  ask_volume1 : Option ℤ
  ask_volume2 : Option ℤ
  ask_volume3 : Option ℤ
  ask_volume4 : Option ℤ
  ask_volume5 : Option ℤ
  ask_volume6 : Option ℤ
  ask_volume7 : Option ℤ
  ask_volume8 : Option ℤ
  ask_volume9 : Option ℤ
  ask_volume10 : Option ℤ
  bid_price1 : Option ℚ
  bid_price2 : Option ℚ
  bid_price3 : Option ℚ
  bid_price4 : Option ℚ
  bid_price5 : Option ℚ
  bid_price6 : Option ℚ
  bid_price7 : Option ℚ
  bid_price8 : Option ℚ
  bid_price9 : Option ℚ
  bid_price10 : Option ℚ
  bid_volume1 : Option ℤ
  bid_volume2 : Option ℤ
  bid_volume3 : Option ℤ
  bid_volume4 : Option ℤ
  bid_volume5 : Option ℤ
  bid_volume6 : Option ℤ
  bid_volume7 : Option ℤ
  bid_volume8 : Option ℤ
  bid_volume9 : Option ℤ
  bid_volume10 : Option ℤ
  last_price : Option ℚ
  highest : Option ℚ
  lowest : Option ℚ
  open_price : Option ℚ
  close : Option ℚ
  upper_limit : Option ℚ
  lower_limit : Option ℚ
  pre_settlement : Option ℚ
  pre_close : Option ℚ
  settlement : Option ℚ
  volume : Option ℤ
  amount : Option ℚ
  open_interest : Option ℤ
  pre_open_interest : Option ℤ
deriving DecidableEq

/-- Include the new value of a field exactly when it changed: the shape
of every comparison in compute_struct_diff. -/
def diffOpt {α : Type} [DecidableEq α] (o n : α) : Option α :=
  if o ≠ n then some n else none

/-- MarketDataServer::compute_struct_diff (lines 604-691), per field. -/
def compute_struct_diff (o n : MarketDataStruct) : QuoteDiff where
  instrument_id := diffOpt o.instrument_id n.instrument_id
  datetime := diffOpt o.datetime n.datetime
  timestamp := diffOpt o.timestamp n.timestamp
  ask_price1 := diffOpt o.ask_price1 n.ask_price1
  ask_price2 := diffOpt o.ask_price2 n.ask_price2
  ask_price3 := diffOpt o.ask_price3 n.ask_price3
  ask_price4 := diffOpt o.ask_price4 n.ask_price4
  ask_price5 := diffOpt o.ask_price5 n.ask_price5
  ask_price6 := diffOpt o.ask_price6 n.ask_price6
  ask_price7 := diffOpt o.ask_price7 n.ask_price7
  ask_price8 := diffOpt o.ask_price8 n.ask_price8
  ask_price9 := diffOpt o.ask_price9 n.ask_price9
  ask_price10 := diffOpt o.ask_price10 n.ask_price10
  ask_volume1 := diffOpt o.ask_volume1 n.ask_volume1
  ask_volume2 := diffOpt o.ask_volume2 n.ask_volume2
  ask_volume3 := diffOpt o.ask_volume3 n.ask_volume3
  ask_volume4 := diffOpt o.ask_volume4 n.ask_volume4
  ask_volume5 := diffOpt o.ask_volume5 n.ask_volume5
  ask_volume6 := diffOpt o.ask_volume6 n.ask_volume6
  ask_volume7 := diffOpt o.ask_volume7 n.ask_volume7
  ask_volume8 := diffOpt o.ask_volume8 n.ask_volume8
  ask_volume9 := diffOpt o.ask_volume9 n.ask_volume9
  ask_volume10 := diffOpt o.ask_volume10 n.ask_volume10
  bid_price1 := diffOpt o.bid_price1 n.bid_price1
  bid_price2 := diffOpt o.bid_price2 n.bid_price2
  bid_price3 := diffOpt o.bid_price3 n.bid_price3
  bid_price4 := diffOpt o.bid_price4 n.bid_price4
  bid_price5 := diffOpt o.bid_price5 n.bid_price5
  bid_price6 := diffOpt o.bid_price6 n.bid_price6
  bid_price7 := diffOpt o.bid_price7 n.bid_price7
  bid_price8 := diffOpt o.bid_price8 n.bid_price8
  bid_price9 := diffOpt o.bid_price9 n.bid_price9
  bid_price10 := diffOpt o.bid_price10 n.bid_price10
  bid_volume1 := diffOpt o.bid_volume1 n.bid_volume1
  bid_volume2 := diffOpt o.bid_volume2 n.bid_volume2
  bid_volume3 := diffOpt o.bid_volume3 n.bid_volume3
  bid_volume4 := diffOpt o.bid_volume4 n.bid_volume4
  bid_volume5 := diffOpt o.bid_volume5 n.bid_volume5
  bid_volume6 := diffOpt o.bid_volume6 n.bid_volume6
  bid_volume7 := diffOpt o.bid_volume7 n.bid_volume7
  bid_volume8 := diffOpt o.bid_volume8 n.bid_volume8
  bid_volume9 := diffOpt o.bid_volume9 n.bid_volume9
  bid_volume10 := diffOpt o.bid_volume10 n.bid_volume10
  last_price := diffOpt o.last_price n.last_price
  highest := diffOpt o.highest n.highest
  lowest := diffOpt o.lowest n.lowest
  open_price := diffOpt o.open_price n.open_price
  close := diffOpt o.close n.close
  upper_limit := diffOpt o.upper_limit n.upper_limit
  lower_limit := diffOpt o.lower_limit n.lower_limit
  pre_settlement := diffOpt o.pre_settlement n.pre_settlement
  pre_close := diffOpt o.pre_close n.pre_close
  settlement := diffOpt o.settlement n.settlement
  volume := diffOpt o.volume n.volume
  amount := diffOpt o.amount n.amount
  open_interest := diffOpt o.open_interest n.open_interest
  pre_open_interest := diffOpt o.pre_open_interest n.pre_open_interest

/-- One optional member rendered in the writer stream. -/
def optEntry {α : Type} (o : Option α) (k : String) (f : α → JVal) : List (String × JVal) :=
  match o with
  | some v => [(k, f v)]
  | none => []

/-- The member list compute_struct_diff writes, in source emission order:
the strings and the timestamp, the ask loop (price then volume per
level), the bid loop, the price scalars in add_price_diff order
(settlement last), then the four numeric scalars. -/
def diffJson (d : QuoteDiff) : List (String × JVal) :=
  optEntry d.instrument_id "instrument_id" JVal.str ++
  optEntry d.datetime "datetime" JVal.str ++
  optEntry d.timestamp "timestamp" JVal.natVal ++
  optEntry d.ask_price1 "ask_price1" JVal.num ++
  optEntry d.ask_volume1 "ask_volume1" JVal.intVal ++
  optEntry d.ask_price2 "ask_price2" JVal.num ++
  optEntry d.ask_volume2 "ask_volume2" JVal.intVal ++
  optEntry d.ask_price3 "ask_price3" JVal.num ++
  optEntry d.ask_volume3 "ask_volume3" JVal.intVal ++
  optEntry d.ask_price4 "ask_price4" JVal.num ++
  optEntry d.ask_volume4 "ask_volume4" JVal.intVal ++
  optEntry d.ask_price5 "ask_price5" JVal.num ++
  optEntry d.ask_volume5 "ask_volume5" JVal.intVal ++
  optEntry d.ask_price6 "ask_price6" JVal.num ++
  optEntry d.ask_volume6 "ask_volume6" JVal.intVal ++
  optEntry d.ask_price7 "ask_price7" JVal.num ++
  optEntry d.ask_volume7 "ask_volume7" JVal.intVal ++
  optEntry d.ask_price8 "ask_price8" JVal.num ++
  optEntry d.ask_volume8 "ask_volume8" JVal.intVal ++
  optEntry d.ask_price9 "ask_price9" JVal.num ++
  optEntry d.ask_volume9 "ask_volume9" JVal.intVal ++
  optEntry d.ask_price10 "ask_price10" JVal.num ++
  optEntry d.ask_volume10 "ask_volume10" JVal.intVal ++
  optEntry d.bid_price1 "bid_price1" JVal.num ++
  optEntry d.bid_volume1 "bid_volume1" JVal.intVal ++
  optEntry d.bid_price2 "bid_price2" JVal.num ++
  optEntry d.bid_volume2 "bid_volume2" JVal.intVal ++
  optEntry d.bid_price3 "bid_price3" JVal.num ++
  optEntry d.bid_volume3 "bid_volume3" JVal.intVal ++
  optEntry d.bid_price4 "bid_price4" JVal.num ++
  optEntry d.bid_volume4 "bid_volume4" JVal.intVal ++
  optEntry d.bid_price5 "bid_price5" JVal.num ++
  optEntry d.bid_volume5 "bid_volume5" JVal.intVal ++
  optEntry d.bid_price6 "bid_price6" JVal.num ++
  optEntry d.bid_volume6 "bid_volume6" JVal.intVal ++
  optEntry d.bid_price7 "bid_price7" JVal.num ++
  optEntry d.bid_volume7 "bid_volume7" JVal.intVal ++
  optEntry d.bid_price8 "bid_price8" JVal.num ++
  optEntry d.bid_volume8 "bid_volume8" JVal.intVal ++
  optEntry d.bid_price9 "bid_price9" JVal.num ++
  optEntry d.bid_volume9 "bid_volume9" JVal.intVal ++
  optEntry d.bid_price10 "bid_price10" JVal.num ++
  optEntry d.bid_volume10 "bid_volume10" JVal.intVal ++
  optEntry d.last_price "last_price" JVal.num ++
  optEntry d.highest "highest" JVal.num ++
  optEntry d.lowest "lowest" JVal.num ++
  optEntry d.open_price "open" JVal.num ++
  optEntry d.close "close" JVal.num ++
  optEntry d.upper_limit "upper_limit" JVal.num ++
  optEntry d.lower_limit "lower_limit" JVal.num ++
  optEntry d.pre_settlement "pre_settlement" JVal.num ++
  optEntry d.pre_close "pre_close" JVal.num ++
  optEntry d.settlement "settlement" JVal.num ++
  optEntry d.volume "volume" JVal.intVal ++
  optEntry d.amount "amount" JVal.num ++
  optEntry d.open_interest "open_interest" JVal.intVal ++
  optEntry d.pre_open_interest "pre_open_interest" JVal.intVal

/-- The ordered key list of a diff object. -/
def diffKeys (d : QuoteDiff) : List String := (diffJson d).map Prod.fst

/-- Applying a diff object as a patch onto a base quote: every member
present in the diff overwrites the corresponding field, every absent
member leaves the base field.  A diff carries no average member, so the
base average always survives.  This is the client-side patch semantics
named by the spec round-trip property P4. -/
def applyDiff (base : MarketDataStruct) (d : QuoteDiff) : MarketDataStruct where
  instrument_id := d.instrument_id.getD base.instrument_id
  datetime := d.datetime.getD base.datetime
  timestamp := d.timestamp.getD base.timestamp
  ask_price1 := d.ask_price1.getD base.ask_price1
  ask_price2 := d.ask_price2.getD base.ask_price2
  ask_price3 := d.ask_price3.getD base.ask_price3
  ask_price4 := d.ask_price4.getD base.ask_price4
  ask_price5 := d.ask_price5.getD base.ask_price5
  ask_price6 := d.ask_price6.getD base.ask_price6
  ask_price7 := d.ask_price7.getD base.ask_price7
  ask_price8 := d.ask_price8.getD base.ask_price8
  ask_price9 := d.ask_price9.getD base.ask_price9
  ask_price10 := d.ask_price10.getD base.ask_price10
  ask_volume1 := d.ask_volume1.getD base.ask_volume1
  ask_volume2 := d.ask_volume2.getD base.ask_volume2
  ask_volume3 := d.ask_volume3.getD base.ask_volume3
  ask_volume4 := d.ask_volume4.getD base.ask_volume4
  ask_volume5 := d.ask_volume5.getD base.ask_volume5
  ask_volume6 := d.ask_volume6.getD base.ask_volume6
  ask_volume7 := d.ask_volume7.getD base.ask_volume7
  ask_volume8 := d.ask_volume8.getD base.ask_volume8
  ask_volume9 := d.ask_volume9.getD base.ask_volume9
  ask_volume10 := d.ask_volume10.getD base.ask_volume10
  bid_price1 := d.bid_price1.getD base.bid_price1
  bid_price2 := d.bid_price2.getD base.bid_price2
  bid_price3 := d.bid_price3.getD base.bid_price3
  bid_price4 := d.bid_price4.getD base.bid_price4
  bid_price5 := d.bid_price5.getD base.bid_price5
  bid_price6 := d.bid_price6.getD base.bid_price6
  bid_price7 := d.bid_price7.getD base.bid_price7
  bid_price8 := d.bid_price8.getD base.bid_price8
  bid_price9 := d.bid_price9.getD base.bid_price9
  bid_price10 := d.bid_price10.getD base.bid_price10
  bid_volume1 := d.bid_volume1.getD base.bid_volume1
  bid_volume2 := d.bid_volume2.getD base.bid_volume2
  bid_volume3 := d.bid_volume3.getD base.bid_volume3
  bid_volume4 := d.bid_volume4.getD base.bid_volume4
  bid_volume5 := d.bid_volume5.getD base.bid_volume5
  bid_volume6 := d.bid_volume6.getD base.bid_volume6
  bid_volume7 := d.bid_volume7.getD base.bid_volume7
  bid_volume8 := d.bid_volume8.getD base.bid_volume8
  bid_volume9 := d.bid_volume9.getD base.bid_volume9
  bid_volume10 := d.bid_volume10.getD base.bid_volume10
  last_price := d.last_price.getD base.last_price
  highest := d.highest.getD base.highest
  lowest := d.lowest.getD base.lowest
  open_price := d.open_price.getD base.open_price
  close := d.close.getD base.close
  average := base.average
  volume := d.volume.getD base.volume
  amount := d.amount.getD base.amount
  open_interest := d.open_interest.getD base.open_interest
  settlement := d.settlement.getD base.settlement
  upper_limit := d.upper_limit.getD base.upper_limit
  lower_limit := d.lower_limit.getD base.lower_limit
  pre_open_interest := d.pre_open_interest.getD base.pre_open_interest
  pre_settlement := d.pre_settlement.getD base.pre_settlement
  pre_close := d.pre_close.getD base.pre_close

/-- An all-zero CTP tick. -/
def zeroTick : DepthMarketDataField where
  TradingDay := ""
  UpdateTime := ""
  UpdateMillisec := 0
  AskPrice1 := 0
  AskPrice2 := 0
  AskPrice3 := 0
  AskPrice4 := 0
  AskPrice5 := 0
  AskVolume1 := 0
  AskVolume2 := 0
  AskVolume3 := 0
  AskVolume4 := 0
  AskVolume5 := 0
  BidPrice1 := 0
  BidPrice2 := 0
  BidPrice3 := 0
  BidPrice4 := 0
  BidPrice5 := 0
  BidVolume1 := 0
  BidVolume2 := 0
  BidVolume3 := 0
  BidVolume4 := 0
  BidVolume5 := 0
  LastPrice := 0
  HighestPrice := 0
  LowestPrice := 0
  OpenPrice := 0
  ClosePrice := 0
  Volume := 0
  Turnover := 0
  OpenInterest := 0
  SettlementPrice := 0
  UpperLimitPrice := 0
  LowerLimitPrice := 0
  PreOpenInterest := 0
  PreSettlementPrice := 0
  PreClosePrice := 0

/-- The all-zero quote (every field as left by memset plus the builder
on an all-zero tick). -/
def emptyQuote : MarketDataStruct := build_market_data_struct zeroTick "" 0

/-- The empty diff object (all members absent). -/
def emptyDiff : QuoteDiff :=
  ⟨none, none, none, none, none, none, none, none, none, none, none, none, none,
   none, none, none, none, none, none, none, none, none, none, none, none, none,
   none, none, none, none, none, none, none, none, none, none, none, none, none,
   none, none, none, none, none, none, none, none, none, none, none, none, none,
   none, none, none, none, none⟩

/-- Scenario S1 tick for SHFE.rb2501: last 3850.0, bid1 3849.0 x 100,
ask1 3851.0 x 50, volume 10000. -/
def s2tick1 : DepthMarketDataField := { zeroTick with
  TradingDay := "20250106", UpdateTime := "09:30:00", UpdateMillisec := 500,
  LastPrice := 3850, AskPrice1 := 3851, AskVolume1 := 50,
  BidPrice1 := 3849, BidVolume1 := 100, Volume := 10000 }

/-- Scenario S2 second tick: relative to s2tick1 only last_price
(3850.5) and volume (10001) change. -/
def s2tick2 : DepthMarketDataField := { s2tick1 with
  LastPrice := 7701/2, Volume := 10001 }

/-- The quote the builder produces from s2tick1 at receive time t. -/
def s2quote1 (t : ℕ) : MarketDataStruct where
  instrument_id := "SHFE.rb2501"
  datetime := "2025-01-06 09:30:00.500"
  timestamp := t
  ask_price1 := 3851
  ask_price2 := 0
  ask_price3 := 0
  ask_price4 := 0
  ask_price5 := 0
  ask_price6 := 0
  ask_price7 := 0
  ask_price8 := 0
  ask_price9 := 0
  ask_price10 := 0
  ask_volume1 := 50
  ask_volume2 := 0
  ask_volume3 := 0
  ask_volume4 := 0
  ask_volume5 := 0
  ask_volume6 := 0
  ask_volume7 := 0
  ask_volume8 := 0
  ask_volume9 := 0
  ask_volume10 := 0
  bid_price1 := 3849
  bid_price2 := 0
  bid_price3 := 0
  bid_price4 := 0
  bid_price5 := 0
  bid_price6 := 0
  bid_price7 := 0
  bid_price8 := 0
  bid_price9 := 0
  bid_price10 := 0
  bid_volume1 := 100
  bid_volume2 := 0
  bid_volume3 := 0
  bid_volume4 := 0
  bid_volume5 := 0
  bid_volume6 := 0
  bid_volume7 := 0
  bid_volume8 := 0
  bid_volume9 := 0
  bid_volume10 := 0
  last_price := 3850
  highest := 0
  lowest := 0
  open_price := 0
  close := 0
  average := 0
  volume := 10000
  amount := 0
  open_interest := 0
  settlement := 0
  upper_limit := 0
  lower_limit := 0
  pre_open_interest := 0
  pre_settlement := 0
  pre_close := 0

/-- AtomicMarketDataEntry (market_data_server.h): the seqlock sequence
counter, the stored quote, and the has_data flag. -/
structure AtomicMarketDataEntry where
  sequence : ℕ
  data : MarketDataStruct
  has_data : Bool

/-- The quote cache: the instrument-to-index map (a slot index is a
position in the allocation list) in front of the preallocated slot
array. -/
structure CacheState where
  instrument_index_map : List String
  market_data_cache : ℕ → AtomicMarketDataEntry

/-- Capacity of the preallocated cache (constructor, lines 743-744). -/
def cacheCapacity : ℕ := 50000

/-- MarketDataServer::get_or_create_index (lines 1171-1209), without the
display-name bookkeeping: an existing instrument keeps its slot; a new
one is allocated the next index unless capacity is reached, in which
case the source returns -1 (none here). -/
def get_or_create_index (st : CacheState) (inst : String) : CacheState × Option ℕ :=
  match st.instrument_index_map.findIdx? (fun s => s == inst) with
  | some i => (st, some i)
  | none =>
    let index := st.instrument_index_map.length
    if cacheCapacity ≤ index then (st, none)
    else ({ st with instrument_index_map := st.instrument_index_map ++ [inst] }, some index)

/-- MarketDataServer::cache_market_data (lines 1221-1246): the seqlock
publish.  The source stores seq+1, copies the data and has_data, then
stores seq+2; the two stores are composed sequentially here. -/
def cache_market_data (st : CacheState) (inst : String) (data : MarketDataStruct) : CacheState :=
  match get_or_create_index st inst with
  | (st1, none) => st1
  | (st1, some i) =>
    let seq := (st1.market_data_cache i).sequence
    let mid := Function.update st1.market_data_cache i
      { st1.market_data_cache i with sequence := seq + 1 }
    { st1 with market_data_cache := Function.update mid i { sequence := seq + 2, data := data, has_data := true } }

/-- The version a seqlock reader exposes for a slot: seq_end / 2
(collect_market_data_updates, line 1374). -/
def slot_version (st : CacheState) (i : ℕ) : ℕ := (st.market_data_cache i).sequence / 2

/-- An incoming client frame after rapidjson parsing: either unparsable
JSON, or an object classified by its string aid member (none when the
aid member is absent or not a string) and its string ins_list member. -/
inductive ClientFrame where
  | malformed
  | jsonObj (aid : Option String) (ins_list : Option String)
deriving DecidableEq

/-- Replies a session can produce from WebSocketSession::handle_message:
the error frame of send_error (lines 193-204), the subscribe_quote ack,
or dispatch into handle_peek_message. -/
inductive SessionReply where
  | errorFrame (message : String)
  | subscribeAck
  | peekDispatched
deriving DecidableEq

/-- WebSocketSession::handle_message (lines 126-191).  Returns the reply
sent, if any: a parse error and a subscribe_quote without a string
ins_list get an error frame; a frame whose aid is absent, not a string,
or neither subscribe_quote nor peek_message falls through the dispatch
and returns without any reply. -/
def handle_message : ClientFrame → Option SessionReply
  | ClientFrame.malformed => some (SessionReply.errorFrame "Invalid JSON format")
  | ClientFrame.jsonObj aid ins_list =>
    match aid with
    | some a =>
      if a = "subscribe_quote" then
        match ins_list with
        | none => some (SessionReply.errorFrame "Missing or invalid ins_list field")
        | some _ => some SessionReply.subscribeAck
      else if a = "peek_message" then some SessionReply.peekDispatched
      else none
    | none => none

/-- handle_message never closes the websocket: no branch calls close,
and on_read (lines 103-124) re-arms do_read after it returns. -/
def closes_channel : ClientFrame → Bool := fun _ => false

/-- CTP connection states. -/
inductive ConnStatus where
  | DISCONNECTED
  | CONNECTING
  | CONNECTED
  | LOGGED_IN
  | ERROR
deriving DecidableEq

/-- One CTPConnection: identity and configured capacity plus its mutable
subscription state (market_data_server.cpp lines 1896-1974). -/
structure CTPConnection where
  connection_id : String
  status : ConnStatus
  subscribed_instruments : Finset String
  max_subscriptions : ℕ
  error_count : ℕ
deriving DecidableEq

/-- An upstream wire call issued to the CTP API. -/
inductive WireCall where
  | sub (connection_id instrument_id : String)
  | unsub (connection_id instrument_id : String)
deriving DecidableEq

/-- CTPConnection::subscribe_instrument (lines 1896-1929).  wire_ok
models SubscribeMarketData returning 0.  Result: updated connection, the
C++ return value, and the wire calls issued. -/
def subscribe_instrument (c : CTPConnection) (inst : String) (wire_ok : Bool) :
    CTPConnection × Bool × List WireCall :=
  if c.status ≠ ConnStatus.LOGGED_IN then (c, false, [])
  else if inst ∈ c.subscribed_instruments then (c, true, [])
  else if c.max_subscriptions ≤ c.subscribed_instruments.card then (c, false, [])
  else if wire_ok then
    ({ c with subscribed_instruments := insert inst c.subscribed_instruments }, true,
      [WireCall.sub c.connection_id inst])
  else ({ c with error_count := c.error_count + 1 }, false,
    [WireCall.sub c.connection_id inst])

/-- CTPConnection::unsubscribe_instrument (lines 1931-1958). -/
def unsubscribe_instrument (c : CTPConnection) (inst : String) (wire_ok : Bool) :
    CTPConnection × Bool × List WireCall :=
  if c.status ≠ ConnStatus.LOGGED_IN then (c, false, [])
  else if inst ∉ c.subscribed_instruments then (c, true, [])
  else if wire_ok then
    ({ c with subscribed_instruments := c.subscribed_instruments.erase inst }, true,
      [WireCall.unsub c.connection_id inst])
  else ({ c with error_count := c.error_count + 1 }, false,
    [WireCall.unsub c.connection_id inst])

/-- CTPConnection::can_accept_more_subscriptions (lines 1966-1974). -/
def can_accept_more_subscriptions (c : CTPConnection) : Bool :=
  if c.status ≠ ConnStatus.LOGGED_IN then false
  else decide (c.subscribed_instruments.card < c.max_subscriptions)

/-- Subscription lifecycle states from subscription_dispatcher.h. -/
inductive SubStatus where
  | PENDING
  | SUBSCRIBING
  | ACTIVE
  | FAILED
  | CANCELLED
deriving DecidableEq

/-- SubscriptionInfo from subscription_dispatcher.h.  The two
time_point fields are omitted: no modelled operation branches on them
(only the unmodelled 10-minute cleanup task does). -/
structure SubscriptionInfo where
  instrument_id : String
  assigned_connection_id : String
  status : SubStatus
  requesting_sessions : Finset String
  retry_count : ℕ
deriving DecidableEq

/-- Association-list lookup, standing in for std::map::find. -/
def lookupA {α : Type} : List (String × α) → String → Option α
  | [], _ => none
  | (k, v) :: t, key => if k = key then some v else lookupA t key

/-- Update the value stored under a key (no-op when absent). -/
def updateA {α : Type} (l : List (String × α)) (key : String) (f : α → α) :
    List (String × α) :=
  l.map fun p => (p.1, if p.1 = key then f p.2 else p.2)

/-- Remove a key, standing in for std::map::erase. -/
def eraseA {α : Type} (l : List (String × α)) (key : String) : List (String × α) :=
  l.filter fun p => p.1 != key

/-- std::set insert on a duplicate-free list. -/
def insertL (l : List String) (x : String) : List String :=
  if x ∈ l then l else l ++ [x]

/-- The SubscriptionDispatcher state together with the connection pool
it draws from.  std::map containers are modelled as association lists
with unique keys (list order stands in for key order; no verified
property depends on iteration order).  retry_set is a duplicate-free
list. -/
structure DispatcherState where
  global_subscriptions : List (String × SubscriptionInfo)
  session_subscriptions : List (String × Finset String)
  connection_subscriptions : List (String × Finset String)
  connections : List CTPConnection
  round_robin_counter : ℕ
  retry_set : List String
  max_retry_count : ℕ
deriving DecidableEq

/-- CTPConnectionManager::get_available_connections: LOGGED_IN and able
to accept more subscriptions. -/
def available_connections (conns : List CTPConnection) : List CTPConnection :=
  conns.filter fun c =>
    decide (c.status = ConnStatus.LOGGED_IN) && can_accept_more_subscriptions c

/-- SubscriptionDispatcher::select_connection_round_robin (lines
211-220): nullptr when no connection is available, otherwise the
element of the available list indexed by counter mod size, with the
counter incremented. -/
def select_connection_round_robin (st : DispatcherState) :
    DispatcherState × Option CTPConnection :=
  let avail := available_connections st.connections
  if avail.isEmpty then (st, none)
  else ({ st with round_robin_counter := st.round_robin_counter + 1 },
    avail[st.round_robin_counter % avail.length]?)

/-- CTPConnectionManager::get_connection. -/
def get_connection (conns : List CTPConnection) (cid : String) : Option CTPConnection :=
  conns.find? fun c => c.connection_id == cid

/-- Write back an updated connection into the pool. -/
def set_connection (conns : List CTPConnection) (c1 : CTPConnection) :
    List CTPConnection :=
  conns.map fun c => if c.connection_id = c1.connection_id then c1 else c

/-- SubscriptionDispatcher::execute_subscription (lines 367-380). -/
def execute_subscription (st : DispatcherState) (inst cid : String) (wire_ok : Bool) :
    DispatcherState × Bool × List WireCall :=
  match get_connection st.connections cid with
  | none => (st, false, [])
  | some c =>
    let r := subscribe_instrument c inst wire_ok
    ({ st with connections := set_connection st.connections r.1 }, r.2.1, r.2.2)

/-- SubscriptionDispatcher::execute_unsubscription (lines 382-394); a
missing connection counts as success. -/
def execute_unsubscription (st : DispatcherState) (inst cid : String) (wire_ok : Bool) :
    DispatcherState × Bool × List WireCall :=
  match get_connection st.connections cid with
  | none => (st, true, [])
  | some c =>
    let r := unsubscribe_instrument c inst wire_ok
    ({ st with connections := set_connection st.connections r.1 }, r.2.1, r.2.2)

/-- session_subscriptions_[session_id].insert(instrument_id). -/
def add_session_instrument (l : List (String × Finset String)) (sid inst : String) :
    List (String × Finset String) :=
  match lookupA l sid with
  | some _ => updateA l sid (fun s => insert inst s)
  | none => l ++ [(sid, {inst})]

/-- The session-map shrink in remove_subscription (lines 115-121):
erase the instrument and drop the entry when its set becomes empty. -/
def remove_session_instrument (l : List (String × Finset String)) (sid inst : String) :
    List (String × Finset String) :=
  match lookupA l sid with
  | some s =>
    let s1 := s.erase inst
    if s1 = ∅ then eraseA l sid else updateA l sid (fun _ => s1)
  | none => l

/-- SubscriptionDispatcher::add_subscription (lines 60-107).  wire_ok
models the CTP return code of the subscribe issued when a new record is
created. -/
def add_subscription (st : DispatcherState) (session_id instrument_id : String)
    (wire_ok : Bool) : DispatcherState × Bool × List WireCall :=
  match lookupA st.global_subscriptions instrument_id with
  | some _ =>
    ({ st with
        global_subscriptions := updateA st.global_subscriptions instrument_id
          (fun i => { i with requesting_sessions := insert session_id i.requesting_sessions }),
        session_subscriptions :=
          add_session_instrument st.session_subscriptions session_id instrument_id },
      true, [])
  | none =>
    let info : SubscriptionInfo :=
      { instrument_id := instrument_id, assigned_connection_id := "",
        status := SubStatus.PENDING, requesting_sessions := {session_id}, retry_count := 0 }
    let st1 := { st with
      global_subscriptions := st.global_subscriptions ++ [(instrument_id, info)],
      session_subscriptions :=
        add_session_instrument st.session_subscriptions session_id instrument_id }
    let sel := select_connection_round_robin st1
    match sel.2 with
    | none =>
      let st2 := { sel.1 with
        global_subscriptions := updateA sel.1.global_subscriptions instrument_id
          (fun i => { i with status := SubStatus.FAILED }) }
      let st3 : DispatcherState := if info.retry_count < st2.max_retry_count then
          { st2 with retry_set := insertL st2.retry_set instrument_id } else st2
      (st3, false, [])
    | some best =>
      let st2 := { sel.1 with
        global_subscriptions := updateA sel.1.global_subscriptions instrument_id
          (fun i => { i with assigned_connection_id := best.connection_id, status := SubStatus.SUBSCRIBING }) }
      let r := execute_subscription st2 instrument_id best.connection_id wire_ok
      let st3 := if r.2.1 then r.1 else
        { r.1 with global_subscriptions := updateA r.1.global_subscriptions instrument_id (fun i => { i with status := SubStatus.FAILED }) }
      (st3, r.2.1, r.2.2)

/-- SubscriptionDispatcher::remove_subscription (lines 109-147). -/
def remove_subscription (st : DispatcherState) (session_id instrument_id : String)
    (wire_ok : Bool) : DispatcherState × Bool × List WireCall :=
  let st0 := { st with session_subscriptions :=
      remove_session_instrument st.session_subscriptions session_id instrument_id }
  match lookupA st0.global_subscriptions instrument_id with
  | none => (st0, true, [])
  | some info =>
    let info1 := { info with requesting_sessions := info.requesting_sessions.erase session_id }
    if info1.requesting_sessions = ∅ then
      let r := execute_unsubscription st0 instrument_id info1.assigned_connection_id wire_ok
      ({ r.1 with global_subscriptions := eraseA r.1.global_subscriptions instrument_id },
        true, r.2.2)
    else
      ({ st0 with global_subscriptions := updateA st0.global_subscriptions instrument_id (fun _ => info1) }, true, [])

/-- SubscriptionDispatcher::on_subscription_failed (lines 318-338):
mark FAILED, increment retry_count, and re-enqueue only while the
incremented count is still below max_retry_count. -/
def on_subscription_failed (st : DispatcherState) (connection_id instrument_id : String) :
    DispatcherState :=
  match lookupA st.global_subscriptions instrument_id with
  | none => st
  | some info =>
    let info1 := { info with status := SubStatus.FAILED, retry_count := info.retry_count + 1 }
    let st1 := { st with global_subscriptions := updateA st.global_subscriptions instrument_id (fun _ => info1) }
    if info1.retry_count < st1.max_retry_count then
      { st1 with retry_set := insertL st1.retry_set instrument_id }
    else st1

/-- SubscriptionDispatcher::migrate_subscription (lines 270-300):
reassign, reset retry_count to 0, reissue the subscribe; on synchronous
failure mark FAILED and (with the just-reset count) enqueue for retry. -/
def migrate_subscription (st : DispatcherState) (instrument_id from_id to_id : String)
    (wire_ok : Bool) : DispatcherState × List WireCall :=
  match lookupA st.global_subscriptions instrument_id with
  | none => (st, [])
  | some info =>
    let info1 : SubscriptionInfo := { info with assigned_connection_id := to_id, status := SubStatus.SUBSCRIBING, retry_count := 0 }
    let st1 : DispatcherState := { st with global_subscriptions := updateA st.global_subscriptions instrument_id (fun _ => info1) }
    let r := execute_subscription st1 instrument_id to_id wire_ok
    if r.2.1 then (r.1, r.2.2)
    else
      let st2 : DispatcherState := { r.1 with global_subscriptions := updateA r.1.global_subscriptions instrument_id (fun i => { i with status := SubStatus.FAILED }) }
      let st3 : DispatcherState := if info1.retry_count < st2.max_retry_count then
          { st2 with retry_set := insertL st2.retry_set instrument_id } else st2
      (st3, r.2.2)

/-- The no-migration branch of handle_connection_failure (lines
246-253): enqueue for retry only when the record exists and its
retry_count is below max_retry_count. -/
def retry_enqueue_if_budget (st : DispatcherState) (instrument_id : String) :
    DispatcherState :=
  match lookupA st.global_subscriptions instrument_id with
  | some info =>
    if info.retry_count < st.max_retry_count then
      { st with retry_set := insertL st.retry_set instrument_id }
    else st
  | none => st

/-- One iteration of the migration loop in handle_connection_failure
(lines 241-254). -/
def failure_step (cid : String) (wire_ok : String → String → Bool)
    (acc : DispatcherState × List WireCall) (inst : String) :
    DispatcherState × List WireCall :=
  let sel := select_connection_round_robin acc.1
  match sel.2 with
  | some best =>
    if best.connection_id ≠ cid then
      let r := migrate_subscription sel.1 inst cid best.connection_id
        (wire_ok best.connection_id inst)
      (r.1, acc.2 ++ r.2)
    else (retry_enqueue_if_budget sel.1 inst, acc.2)
  | none => (retry_enqueue_if_budget sel.1 inst, acc.2)

/-- SubscriptionDispatcher::handle_connection_failure (lines 222-260):
mark every ACTIVE record assigned to the failed connection FAILED, then
try to migrate each one, and finally drop the failed connection from
connection_subscriptions.  wire_ok gives the CTP return code for each
attempted migration target. -/
def handle_connection_failure (st : DispatcherState) (cid : String)
    (wire_ok : String → String → Bool) : DispatcherState × List WireCall :=
  let affected := (st.global_subscriptions.filter fun p =>
      decide (p.2.assigned_connection_id = cid ∧ p.2.status = SubStatus.ACTIVE)).map Prod.fst
  let st1 := { st with global_subscriptions := st.global_subscriptions.map fun p =>
      (p.1, if p.2.assigned_connection_id = cid ∧ p.2.status = SubStatus.ACTIVE then
        { p.2 with status := SubStatus.FAILED } else p.2) }
  let r := affected.foldl (failure_step cid wire_ok) (st1, [])
  ({ r.1 with connection_subscriptions := eraseA r.1.connection_subscriptions cid }, r.2)

/-- One iteration of the drain loop in process_pending_subscriptions
(lines 407-433).  The accumulator carries the state, the failed_again
set and the wire calls issued so far. -/
def drain_step (wire_ok : String → String → Bool)
    (acc : DispatcherState × List String × List WireCall) (inst : String) :
    DispatcherState × List String × List WireCall :=
  match lookupA acc.1.global_subscriptions inst with
  | some info =>
    if info.status = SubStatus.FAILED then
      let sel := select_connection_round_robin acc.1
      match sel.2 with
      | some best =>
        let st1 := { sel.1 with global_subscriptions := updateA sel.1.global_subscriptions inst (fun i => { i with assigned_connection_id := best.connection_id, status := SubStatus.SUBSCRIBING }) }
        let r := execute_subscription st1 inst best.connection_id (wire_ok best.connection_id inst)
        if r.2.1 then
          ({ r.1 with global_subscriptions := updateA r.1.global_subscriptions inst (fun i => { i with retry_count := 0 }) }, acc.2.1, acc.2.2 ++ r.2.2)
        else
          let st2 := { r.1 with global_subscriptions := updateA r.1.global_subscriptions inst (fun i => { i with status := SubStatus.FAILED }) }
          if info.retry_count < st2.max_retry_count then
            (st2, insertL acc.2.1 inst, acc.2.2 ++ r.2.2)
          else (st2, acc.2.1, acc.2.2 ++ r.2.2)
      | none =>
        if info.retry_count < sel.1.max_retry_count then
          (sel.1, insertL acc.2.1 inst, acc.2.2)
        else (sel.1, acc.2.1, acc.2.2)
    else acc
  | none => acc

/-- SubscriptionDispatcher::process_pending_subscriptions (lines
396-439): drain the retry set, attempt a round-robin resubscribe for
each still-FAILED record, and re-enqueue the ones that fail again and
still have retry budget.  Nothing in this function increments
retry_count. -/
def process_pending_subscriptions (st : DispatcherState)
    (wire_ok : String → String → Bool) : DispatcherState × List WireCall :=
  let current := st.retry_set
  let st0 := { st with retry_set := ([] : List String) }
  let r := current.foldl (drain_step wire_ok) (st0, [], [])
  ({ r.1 with retry_set := r.2.1.foldl insertL r.1.retry_set }, r.2.2)

/-- The per-field storage rule of build_market_data_struct as the
source implements it: a price is stored rounded to two decimals exactly
when 1e-6 < v < 1e300 holds for the signed value, and 0.0 otherwise. -/
def price_rule (v : ℚ) : ℚ :=
  if 1/1000000 < v ∧ v < 10^300 then (round (v * 100) : ℚ) / 100 else 0

/-- Modelled from the claim wording of C4 (absolute magnitude): store
0.0 exactly when the absolute value is at most 1e-6 or at least 1e300,
and the value rounded to two decimals otherwise.  Stated only to compare
the claim against the rule the source implements. -/
def claimed_price_rule (v : ℚ) : ℚ :=
  if |v| ≤ 1/1000000 ∨ 10^300 ≤ |v| then 0 else (round (v * 100) : ℚ) / 100

/-- A subscribe or unsubscribe request against one connection. -/
inductive ConnOp where
  | sub (inst : String) (wire_ok : Bool)
  | unsub (inst : String) (wire_ok : Bool)

/-- Run one operation on a connection, keeping the updated connection. -/
def apply_conn_op (c : CTPConnection) : ConnOp → CTPConnection
  | ConnOp.sub i w => (subscribe_instrument c i w).1
  | ConnOp.unsub i w => (unsubscribe_instrument c i w).1

/-- Fold add_subscription over a list of sessions for one instrument,
collecting every upstream wire call issued. -/
def add_all (st : DispatcherState) (sessions : List String) (inst : String) :
    DispatcherState × List WireCall :=
  sessions.foldl (fun acc s =>
    let r := add_subscription acc.1 s inst true
    (r.1, acc.2 ++ r.2.2)) (st, [])

/-- Fold remove_subscription over a list of sessions for one
instrument, collecting every upstream wire call issued. -/
def remove_all (st : DispatcherState) (sessions : List String) (inst : String) :
    DispatcherState × List WireCall :=
  sessions.foldl (fun acc s =>
    let r := remove_subscription acc.1 s inst true
    (r.1, acc.2 ++ r.2.2)) (st, [])

/-- The single upstream connection of scenario S4: logged in, empty
subscription set, ample capacity. -/
def c5conn : CTPConnection :=
  { connection_id := "c1", status := ConnStatus.LOGGED_IN,
    subscribed_instruments := ∅, max_subscriptions := 500, error_count := 0 }

/-- Initial dispatcher state of scenario S4: no subscriptions, one
available connection. -/
def c5st0 : DispatcherState :=
  { global_subscriptions := [], session_subscriptions := [],
    connection_subscriptions := [], connections := [c5conn],
    round_robin_counter := 0, retry_set := [], max_retry_count := 3 }

/-- The dispatcher state after the first add_subscription on c5st0 for
instrument i, parametrised by the session set accumulated so far and
the session-map bookkeeping. -/
def c5mid (i : String) (S : Finset String) (sess : List (String × Finset String)) :
    DispatcherState :=
  { global_subscriptions := [(i, { instrument_id := i, assigned_connection_id := "c1", status := SubStatus.SUBSCRIBING, requesting_sessions := S, retry_count := 0 })],
    session_subscriptions := sess,
    connection_subscriptions := [],
    connections := [{ c5conn with subscribed_instruments := {i} }],
    round_robin_counter := 1, retry_set := [], max_retry_count := 3 }

/-- The dispatcher state after the last session left in scenario S4:
record deleted, upstream unsubscribed. -/
def c5done (sess : List (String × Finset String)) : DispatcherState :=
  { global_subscriptions := [], session_subscriptions := sess,
    connection_subscriptions := [], connections := [c5conn],
    round_robin_counter := 1, retry_set := [], max_retry_count := 3 }

/-- The outcome P6 promises (amended) for a record that was ACTIVE on
the failed connection cid: reassigned away from cid, or queued for
retry, or abandoned with its retry budget exhausted. -/
def failover_outcome (cid : String) (st : DispatcherState) (inst : String) : Prop :=
  ∃ info1, lookupA st.global_subscriptions inst = some info1 ∧
    ((info1.status = SubStatus.SUBSCRIBING ∧ info1.assigned_connection_id ≠ cid) ∨
     inst ∈ st.retry_set ∨
     (info1.status = SubStatus.FAILED ∧ st.max_retry_count ≤ info1.retry_count))

/-- A logged-in connection at capacity: one subscribed instrument,
max_subscriptions 1. -/
def c6full : CTPConnection :=
  { connection_id := "c1", status := ConnStatus.LOGGED_IN,
    subscribed_instruments := {"rb2501"}, max_subscriptions := 1, error_count := 0 }

/-- A disconnected connection. -/
def c6idle : CTPConnection :=
  { connection_id := "c1", status := ConnStatus.DISCONNECTED,
    subscribed_instruments := ∅, max_subscriptions := 5, error_count := 0 }

/-- A dispatcher state with one ACTIVE record on connection c1 whose
retry budget is already exhausted, and no surviving connections. -/
def c7st : DispatcherState :=
  { global_subscriptions := [("i1", { instrument_id := "i1", assigned_connection_id := "c1", status := SubStatus.ACTIVE, requesting_sessions := {"s1"}, retry_count := 3 })],
    session_subscriptions := [("s1", {"i1"})],
    connection_subscriptions := [("c1", {"i1"})], connections := [],
    round_robin_counter := 0, retry_set := [], max_retry_count := 3 }

/-- A dispatcher state with one FAILED record (retry_count 0) already in
the retry set and no available connections: the cannot-place situation
of the retry policy. -/
def c8st : DispatcherState :=
  { global_subscriptions := [("rb2501", { instrument_id := "rb2501", assigned_connection_id := "", status := SubStatus.FAILED, requesting_sessions := {"s1"}, retry_count := 0 })],
    session_subscriptions := [("s1", {"rb2501"})],
    connection_subscriptions := [], connections := [],
    round_robin_counter := 0, retry_set := ["rb2501"], max_retry_count := 3 }

/-- One maintenance drain with every wire call succeeding. -/
def drain1 (st : DispatcherState) : DispatcherState :=
  (process_pending_subscriptions st (fun _ _ => true)).1

/-- An empty quote cache: no instrument allocated, all slots at
sequence 0. -/
def c3st : CacheState :=
  { instrument_index_map := [],
    market_data_cache := fun _ => { sequence := 0, data := emptyQuote, has_data := false } }

@[ext]
theorem MarketDataStruct.extM (x y : MarketDataStruct)
    (h1 : x.instrument_id = y.instrument_id)
    (h2 : x.datetime = y.datetime)
    (h3 : x.timestamp = y.timestamp)
    (h4 : x.ask_price1 = y.ask_price1)
    (h5 : x.ask_price2 = y.ask_price2)
    (h6 : x.ask_price3 = y.ask_price3)
    (h7 : x.ask_price4 = y.ask_price4)
    (h8 : x.ask_price5 = y.ask_price5)
    (h9 : x.ask_price6 = y.ask_price6)
    (h10 : x.ask_price7 = y.ask_price7)
    (h11 : x.ask_price8 = y.ask_price8)
    (h12 : x.ask_price9 = y.ask_price9)
    (h13 : x.ask_price10 = y.ask_price10)
    (h14 : x.ask_volume1 = y.ask_volume1)
    (h15 : x.ask_volume2 = y.ask_volume2)
    (h16 : x.ask_volume3 = y.ask_volume3)
    (h17 : x.ask_volume4 = y.ask_volume4)
    (h18 : x.ask_volume5 = y.ask_volume5)
    (h19 : x.ask_volume6 = y.ask_volume6)
    (h20 : x.ask_volume7 = y.ask_volume7)
    (h21 : x.ask_volume8 = y.ask_volume8)
    (h22 : x.ask_volume9 = y.ask_volume9)
    (h23 : x.ask_volume10 = y.ask_volume10)
    (h24 : x.bid_price1 = y.bid_price1)
    (h25 : x.bid_price2 = y.bid_price2)
    (h26 : x.bid_price3 = y.bid_price3)
    (h27 : x.bid_price4 = y.bid_price4)
    (h28 : x.bid_price5 = y.bid_price5)
    (h29 : x.bid_price6 = y.bid_price6)
    (h30 : x.bid_price7 = y.bid_price7)
    (h31 : x.bid_price8 = y.bid_price8)
    (h32 : x.bid_price9 = y.bid_price9)
    (h33 : x.bid_price10 = y.bid_price10)
    (h34 : x.bid_volume1 = y.bid_volume1)
    (h35 : x.bid_volume2 = y.bid_volume2)
    (h36 : x.bid_volume3 = y.bid_volume3)
    (h37 : x.bid_volume4 = y.bid_volume4)
    (h38 : x.bid_volume5 = y.bid_volume5)
    (h39 : x.bid_volume6 = y.bid_volume6)
    (h40 : x.bid_volume7 = y.bid_volume7)
    (h41 : x.bid_volume8 = y.bid_volume8)
    (h42 : x.bid_volume9 = y.bid_volume9)
    (h43 : x.bid_volume10 = y.bid_volume10)
    (h44 : x.last_price = y.last_price)
    (h45 : x.highest = y.highest)
    (h46 : x.lowest = y.lowest)
    (h47 : x.open_price = y.open_price)
    (h48 : x.close = y.close)
    (h49 : x.average = y.average)
    (h50 : x.volume = y.volume)
    (h51 : x.amount = y.amount)
    (h52 : x.open_interest = y.open_interest)
    (h53 : x.settlement = y.settlement)
    (h54 : x.upper_limit = y.upper_limit)
    (h55 : x.lower_limit = y.lower_limit)
    (h56 : x.pre_open_interest = y.pre_open_interest)
    (h57 : x.pre_settlement = y.pre_settlement)
    (h58 : x.pre_close = y.pre_close)
    : x = y := by
  cases x
  cases y
  congr 1 <;> assumption

@[ext]
theorem QuoteDiff.extQ (x y : QuoteDiff)
    (h1 : x.instrument_id = y.instrument_id)
    (h2 : x.datetime = y.datetime)
    (h3 : x.timestamp = y.timestamp)
    (h4 : x.ask_price1 = y.ask_price1)
    (h5 : x.ask_price2 = y.ask_price2)
    (h6 : x.ask_price3 = y.ask_price3)
    (h7 : x.ask_price4 = y.ask_price4)
    (h8 : x.ask_price5 = y.ask_price5)
    (h9 : x.ask_price6 = y.ask_price6)
    (h10 : x.ask_price7 = y.ask_price7)
    (h11 : x.ask_price8 = y.ask_price8)
    (h12 : x.ask_price9 = y.ask_price9)
    (h13 : x.ask_price10 = y.ask_price10)
    (h14 : x.ask_volume1 = y.ask_volume1)
    (h15 : x.ask_volume2 = y.ask_volume2)
    (h16 : x.ask_volume3 = y.ask_volume3)
    (h17 : x.ask_volume4 = y.ask_volume4)
    (h18 : x.ask_volume5 = y.ask_volume5)
    (h19 : x.ask_volume6 = y.ask_volume6)
    (h20 : x.ask_volume7 = y.ask_volume7)
    (h21 : x.ask_volume8 = y.ask_volume8)
    (h22 : x.ask_volume9 = y.ask_volume9)
    (h23 : x.ask_volume10 = y.ask_volume10)
    (h24 : x.bid_price1 = y.bid_price1)
    (h25 : x.bid_price2 = y.bid_price2)
    (h26 : x.bid_price3 = y.bid_price3)
    (h27 : x.bid_price4 = y.bid_price4)
    (h28 : x.bid_price5 = y.bid_price5)
    (h29 : x.bid_price6 = y.bid_price6)
    (h30 : x.bid_price7 = y.bid_price7)
    (h31 : x.bid_price8 = y.bid_price8)
    (h32 : x.bid_price9 = y.bid_price9)
    (h33 : x.bid_price10 = y.bid_price10)
    (h34 : x.bid_volume1 = y.bid_volume1)
    (h35 : x.bid_volume2 = y.bid_volume2)
    (h36 : x.bid_volume3 = y.bid_volume3)
    (h37 : x.bid_volume4 = y.bid_volume4)
    (h38 : x.bid_volume5 = y.bid_volume5)
    (h39 : x.bid_volume6 = y.bid_volume6)
    (h40 : x.bid_volume7 = y.bid_volume7)
    (h41 : x.bid_volume8 = y.bid_volume8)
    (h42 : x.bid_volume9 = y.bid_volume9)
    (h43 : x.bid_volume10 = y.bid_volume10)
    (h44 : x.last_price = y.last_price)
    (h45 : x.highest = y.highest)
    (h46 : x.lowest = y.lowest)
    (h47 : x.open_price = y.open_price)
    (h48 : x.close = y.close)
    (h49 : x.upper_limit = y.upper_limit)
    (h50 : x.lower_limit = y.lower_limit)
    (h51 : x.pre_settlement = y.pre_settlement)
    (h52 : x.pre_close = y.pre_close)
    (h53 : x.settlement = y.settlement)
    (h54 : x.volume = y.volume)
    (h55 : x.amount = y.amount)
    (h56 : x.open_interest = y.open_interest)
    (h57 : x.pre_open_interest = y.pre_open_interest)
    : x = y := by
  cases x
  cases y
  congr 1 <;> assumption

theorem diffOpt_getD {α : Type} [DecidableEq α] (a b : α) : (diffOpt a b).getD a = b := by
  by_cases h : a = b <;> simp [diffOpt, h]

theorem diffOpt_self {α : Type} [DecidableEq α] (a : α) : diffOpt a a = none := by
  simp [diffOpt]

theorem mem_optEntry_map_fst {α : Type} {o : Option α} {k x : String} {f : α → JVal} :
    x ∈ (optEntry o k f).map Prod.fst ↔ o.isSome = true ∧ x = k := by
  cases o <;> simp [optEntry]

theorem applyDiff_roundtrip (o n : MarketDataStruct) (h : o.average = n.average) :
    applyDiff o (compute_struct_diff o n) = n := by
  ext <;> simp [applyDiff, compute_struct_diff, diffOpt_getD, h]

/-- Claim C1 (corrected): patching old with compute_struct_diff(old,new)
reconstructs new on every field except average (the diff engine never
emits average), hence exactly whenever old and new agree on average; and
a FULL frame followed by any chain of DIFF frames reproduces the latest
delivered quote whenever the chain agrees on average - which holds for
every quote the gateway builds, since build_market_data_struct always
leaves average at zero. -/
theorem diff_roundtrip_modulo_average :
    (∀ o n : MarketDataStruct, o.average = n.average →
        applyDiff o (compute_struct_diff o n) = n) ∧
    (∀ (q0 : MarketDataStruct) (qs : List MarketDataStruct),
        (∀ q ∈ qs, q.average = q0.average) →
        qs.foldl (fun acc q => applyDiff acc (compute_struct_diff acc q)) q0
          = qs.getLastD q0) := by
  refine ⟨applyDiff_roundtrip, ?_⟩
  intro q0 qs
  induction qs generalizing q0 with
  | nil => intro _; rfl
  | cons q rest ih =>
    intro h
    have hq : q0.average = q.average := (h q (by simp)).symm
    have h1 : applyDiff q0 (compute_struct_diff q0 q) = q := applyDiff_roundtrip q0 q hq
    simp only [List.foldl_cons, h1, List.getLastD_cons]
    exact ih q (fun r hr => (h r (by simp [hr])).trans hq)

/-- Claim C1 counterexample: for two quote records that differ only in
average, the emitted diff patches nothing, so the round-trip does not
reconstruct new - the claim fails as stated for arbitrary pairs. -/
theorem diff_roundtrip_average_counterexample :
    applyDiff emptyQuote (compute_struct_diff emptyQuote { emptyQuote with average := 1 })
      ≠ { emptyQuote with average := 1 } := by
  intro h
  have h2 := congrArg MarketDataStruct.average h
  simp [applyDiff, emptyQuote, build_market_data_struct] at h2

theorem diff_roundtrip_modulo_average_witness :
    applyDiff emptyQuote (compute_struct_diff emptyQuote { emptyQuote with last_price := 5 })
      = { emptyQuote with last_price := 5 } :=
  diff_roundtrip_modulo_average.1 emptyQuote { emptyQuote with last_price := 5 } rfl

/-- Claim C10 (confirmed): the diff engine never inspects average - two
records differing only in average yield has_struct_changes false and an
empty diff object; no diff member list ever contains the key average;
and the FULL-frame serialisation always carries average as null. -/
theorem diff_engine_ignores_average :
    (∀ (o : MarketDataStruct) (a : ℚ),
        has_struct_changes o { o with average := a } = false ∧
        diffJson (compute_struct_diff o { o with average := a }) = []) ∧
    (∀ d : QuoteDiff, "average" ∉ diffKeys d) ∧
    (∀ q : MarketDataStruct, ("average", JVal.nullVal) ∈ struct_to_json q) := by
  refine ⟨?_, ?_, ?_⟩
  · intro o a
    constructor
    · simp [has_struct_changes]
    · simp [compute_struct_diff, diffJson, diffOpt_self, optEntry]
  · intro d hm
    rw [diffKeys] at hm
    simp only [diffJson, List.map_append, List.mem_append, mem_optEntry_map_fst] at hm
    simp at hm
  · intro q
    simp [struct_to_json]

theorem diff_engine_ignores_average_witness :
    "average" ∉ diffKeys emptyDiff :=
  diff_engine_ignores_average.2.1 emptyDiff

/-- Claim C4 (corrected): every price field stored by
build_market_data_struct follows the source rule: the rounded value
round(v*100)/100 exactly when 1e-6 < v < 1e300 holds for the signed
upstream value, and 0.0 otherwise.  (The claim said absolute magnitude;
negative values are also stored as 0.0.) -/
theorem build_price_validity :
    ∀ (p : DepthMarketDataField) (dsp : String) (t : ℕ),
      (build_market_data_struct p dsp t).ask_price1 = price_rule p.AskPrice1 ∧
      (build_market_data_struct p dsp t).ask_price2 = price_rule p.AskPrice2 ∧
      (build_market_data_struct p dsp t).ask_price3 = price_rule p.AskPrice3 ∧
      (build_market_data_struct p dsp t).ask_price4 = price_rule p.AskPrice4 ∧
      (build_market_data_struct p dsp t).ask_price5 = price_rule p.AskPrice5 ∧
      (build_market_data_struct p dsp t).bid_price1 = price_rule p.BidPrice1 ∧
      (build_market_data_struct p dsp t).bid_price2 = price_rule p.BidPrice2 ∧
      (build_market_data_struct p dsp t).bid_price3 = price_rule p.BidPrice3 ∧
      (build_market_data_struct p dsp t).bid_price4 = price_rule p.BidPrice4 ∧
      (build_market_data_struct p dsp t).bid_price5 = price_rule p.BidPrice5 ∧
      (build_market_data_struct p dsp t).last_price = price_rule p.LastPrice ∧
      (build_market_data_struct p dsp t).highest = price_rule p.HighestPrice ∧
      (build_market_data_struct p dsp t).lowest = price_rule p.LowestPrice ∧
      (build_market_data_struct p dsp t).open_price = price_rule p.OpenPrice ∧
      (build_market_data_struct p dsp t).close = price_rule p.ClosePrice ∧
      (build_market_data_struct p dsp t).settlement = price_rule p.SettlementPrice ∧
      (build_market_data_struct p dsp t).upper_limit = price_rule p.UpperLimitPrice ∧
      (build_market_data_struct p dsp t).lower_limit = price_rule p.LowerLimitPrice ∧
      (build_market_data_struct p dsp t).pre_settlement = price_rule p.PreSettlementPrice ∧
      (build_market_data_struct p dsp t).pre_close = price_rule p.PreClosePrice :=
  fun p dsp t =>
    ⟨rfl, rfl, rfl, rfl, rfl, rfl, rfl, rfl, rfl, rfl,
     rfl, rfl, rfl, rfl, rfl, rfl, rfl, rfl, rfl, rfl⟩

/-- Claim C4 counterexample: an upstream LastPrice of -1 has absolute
magnitude between 1e-6 and 1e300, so the claimed rule stores -1.0, but
the source stores 0.0 (its comparison v > 1e-6 is on the signed
value). -/
theorem build_price_validity_counterexample :
    (build_market_data_struct { zeroTick with LastPrice := -1 } "X" 0).last_price = 0 ∧
    claimed_price_rule (-1) = -1 ∧
    (build_market_data_struct { zeroTick with LastPrice := -1 } "X" 0).last_price
      ≠ claimed_price_rule (-1) := by
  have h1 : (build_market_data_struct { zeroTick with LastPrice := -1 } "X" 0).last_price = 0 := by
    norm_num [build_market_data_struct]
  have h2 : claimed_price_rule (-1) = -1 := by
    have hr : round ((-100 : ℚ)) = -100 := by
      have hc : ((-100 : ℚ)) = ((-100 : ℤ) : ℚ) := by norm_num
      rw [hc, round_intCast]
    norm_num [claimed_price_rule, hr]
  exact ⟨h1, h2, by rw [h1, h2]; norm_num⟩

/-- Claim C9 (corrected): malformed JSON and a subscribe_quote without
a string ins_list are answered with an error frame; a well-formed
subscribe_quote is acked and peek_message dispatches the peek; but a
frame whose aid is unknown, absent or not a string receives no reply at
all (the claim said it gets an error frame); no frame closes the
channel. -/
theorem handle_message_error_replies :
    handle_message ClientFrame.malformed
        = some (SessionReply.errorFrame "Invalid JSON format") ∧
    handle_message (ClientFrame.jsonObj (some "subscribe_quote") none)
        = some (SessionReply.errorFrame "Missing or invalid ins_list field") ∧
    (∀ il, handle_message (ClientFrame.jsonObj (some "subscribe_quote") (some il))
        = some SessionReply.subscribeAck) ∧
    (∀ il, handle_message (ClientFrame.jsonObj (some "peek_message") il)
        = some SessionReply.peekDispatched) ∧
    (∀ a il, a ≠ "subscribe_quote" → a ≠ "peek_message" →
        handle_message (ClientFrame.jsonObj (some a) il) = none) ∧
    (∀ il, handle_message (ClientFrame.jsonObj none il) = none) ∧
    (∀ f, closes_channel f = false) := by
  refine ⟨rfl, rfl, fun il => rfl, fun il => rfl, ?_, fun il => rfl, fun f => rfl⟩
  intro a il h1 h2
  simp [handle_message, h1, h2]

/-- Claim C9 counterexample: a syntactically valid frame with an
unknown aid, and one with no aid at all, are silently ignored - no
error frame is produced, contradicting the claim as stated. -/
theorem handle_message_unknown_aid_counterexample :
    handle_message (ClientFrame.jsonObj (some "query_something") none) = none ∧
    handle_message (ClientFrame.jsonObj none none) = none :=
  ⟨rfl, rfl⟩

theorem handle_message_error_replies_witness :
    handle_message (ClientFrame.jsonObj (some "rtn_data") none) = none :=
  handle_message_error_replies.2.2.2.2.1 "rtn_data" none (by decide) (by decide)

set_option maxHeartbeats 1000000 in
theorem diffJson_s2 (o : Option ℕ) (lp : ℚ) (v : ℤ) :
    diffJson { emptyDiff with timestamp := o, last_price := some lp, volume := some v }
      = optEntry o "timestamp" JVal.natVal
        ++ [("last_price", JVal.num lp), ("volume", JVal.intVal v)] := by
  cases o <;> simp [diffJson, emptyDiff, optEntry]

set_option maxHeartbeats 1000000 in
theorem s2_build1 (t : ℕ) :
    build_market_data_struct s2tick1 "SHFE.rb2501" t = s2quote1 t := by
  ext <;> first
  | rfl
  | (norm_num [build_market_data_struct, s2quote1, s2tick1, zeroTick, truncQ]; done)

set_option maxHeartbeats 1000000 in
theorem s2_build2 (t : ℕ) :
    build_market_data_struct s2tick2 "SHFE.rb2501" t
      = { s2quote1 t with last_price := 7701/2, volume := 10001 } := by
  ext <;> first
  | rfl
  | (norm_num [build_market_data_struct, s2quote1, s2tick2, s2tick1, zeroTick, truncQ]; done)

set_option maxHeartbeats 1000000 in
theorem s2_diff_shape (t1 t2 : ℕ) :
    compute_struct_diff (build_market_data_struct s2tick1 "SHFE.rb2501" t1)
        (build_market_data_struct s2tick2 "SHFE.rb2501" t2)
      = { emptyDiff with timestamp := if t1 = t2 then none else some t2, last_price := some (7701/2), volume := some 10001 } := by
  rw [s2_build1, s2_build2]
  ext <;> first
  | (simp only [compute_struct_diff, s2quote1, emptyDiff, diffOpt_self]; rfl)
  | (norm_num [compute_struct_diff, s2quote1, emptyDiff, diffOpt]; done)
  | (by_cases h : t1 = t2 <;>
      simp [compute_struct_diff, s2quote1, emptyDiff, diffOpt, h])

/-- Claim C2 (corrected): for the two ticks of scenario S2 (only
last_price and volume change upstream), the emitted diff object carries
exactly last_price = 3850.5 and volume = 10001 - plus the timestamp
member exactly when the two receive times differ (the struct timestamp
is the receive time, which the source diffs like any other field). -/
theorem s2_diff_exact :
    ∀ t1 t2 : ℕ,
      compute_struct_diff (build_market_data_struct s2tick1 "SHFE.rb2501" t1)
          (build_market_data_struct s2tick2 "SHFE.rb2501" t2)
        = { emptyDiff with timestamp := if t1 = t2 then none else some t2, last_price := some (7701/2), volume := some 10001 } ∧
      diffJson (compute_struct_diff (build_market_data_struct s2tick1 "SHFE.rb2501" t1)
          (build_market_data_struct s2tick2 "SHFE.rb2501" t2))
        = (if t1 = t2 then [] else [("timestamp", JVal.natVal t2)])
          ++ [("last_price", JVal.num (7701/2)), ("volume", JVal.intVal 10001)] := by
  intro t1 t2
  refine ⟨s2_diff_shape t1 t2, ?_⟩
  rw [s2_diff_shape t1 t2, diffJson_s2]
  by_cases h : t1 = t2 <;> simp [h, optEntry]

/-- Claim C2 counterexample: with receive times 1000 and 2000 the peek
diff for scenario S2 contains the key timestamp in addition to
last_price and volume, so it does not consist of exactly those two
keys. -/
theorem s2_diff_counterexample :
    diffKeys (compute_struct_diff (build_market_data_struct s2tick1 "SHFE.rb2501" 1000)
        (build_market_data_struct s2tick2 "SHFE.rb2501" 2000))
      = ["timestamp", "last_price", "volume"] ∧
    diffKeys (compute_struct_diff (build_market_data_struct s2tick1 "SHFE.rb2501" 1000)
        (build_market_data_struct s2tick2 "SHFE.rb2501" 2000))
      ≠ ["last_price", "volume"] := by
  have h1 := s2_diff_shape 1000 2000
  rw [if_neg (by decide)] at h1
  refine ⟨?_, ?_⟩
  · rw [diffKeys, h1, diffJson_s2]; rfl
  · rw [diffKeys, h1, diffJson_s2]; decide

theorem gci_cache (st : CacheState) (inst : String) :
    ((get_or_create_index st inst).1).market_data_cache = st.market_data_cache := by
  unfold get_or_create_index
  rcases h : st.instrument_index_map.findIdx? (fun s => s == inst) with _ | k
  · simp only [h]
    split <;> rfl
  · simp only [h]

theorem cache_publish_step (st : CacheState) (inst : String) (data : MarketDataStruct)
    (i : ℕ) (h : (get_or_create_index st inst).2 = some i) :
    ((cache_market_data st inst data).market_data_cache i).sequence
        = (st.market_data_cache i).sequence + 2 ∧
    (∀ j, j ≠ i → (cache_market_data st inst data).market_data_cache j
        = st.market_data_cache j) := by
  have hc := gci_cache st inst
  rcases hE : get_or_create_index st inst with ⟨st1, _ | k⟩
  · rw [hE] at h
    exact absurd h (by simp)
  · rw [hE] at h hc
    have hk : k = i := by simpa using h
    subst hk
    simp only at hc
    constructor
    · simp only [cache_market_data, hE, Function.update_same]
      rw [hc]
    · intro j hj
      simp only [cache_market_data, hE]
      rw [Function.update_noteq hj, Function.update_noteq hj, hc]

theorem cache_step_mono (st : CacheState) (inst : String) (data : MarketDataStruct)
    (i : ℕ) :
    (st.market_data_cache i).sequence
      ≤ ((cache_market_data st inst data).market_data_cache i).sequence := by
  have hc := gci_cache st inst
  rcases hE : get_or_create_index st inst with ⟨st1, _ | k⟩
  · rw [hE] at hc
    simp only at hc
    simp only [cache_market_data, hE]
    rw [hc]
  · rw [hE] at hc
    simp only at hc
    simp only [cache_market_data, hE]
    by_cases hik : i = k
    · subst hik
      rw [Function.update_same, hc]
      exact Nat.le_add_right _ 2
    · rw [Function.update_noteq hik, Function.update_noteq hik, hc]

/-- Claim C3 (confirmed): a cache_market_data call that obtains a valid
slot index raises that slot's sequence by exactly 2 (the seq+1 and
seq+2 stores composed) and leaves every other slot untouched; evenness
of the counter is preserved and the reader-visible version seq/2 grows
by exactly 1; across any sequence of publishes the version of a slot is
monotonically non-decreasing. -/
theorem cache_publish_version :
    (∀ (st : CacheState) (inst : String) (data : MarketDataStruct) (i : ℕ),
      (get_or_create_index st inst).2 = some i →
      ((cache_market_data st inst data).market_data_cache i).sequence
          = (st.market_data_cache i).sequence + 2 ∧
      (∀ j, j ≠ i → (cache_market_data st inst data).market_data_cache j
          = st.market_data_cache j) ∧
      ((st.market_data_cache i).sequence % 2 = 0 →
        ((cache_market_data st inst data).market_data_cache i).sequence % 2 = 0) ∧
      slot_version (cache_market_data st inst data) i = slot_version st i + 1) ∧
    (∀ (pubs : List (String × MarketDataStruct)) (st : CacheState) (i : ℕ),
      slot_version st i
        ≤ slot_version (pubs.foldl (fun s p => cache_market_data s p.1 p.2) st) i) := by
  constructor
  · intro st inst data i h
    obtain ⟨h1, h2⟩ := cache_publish_step st inst data i h
    refine ⟨h1, h2, ?_, ?_⟩
    · intro hpar
      rw [h1]
      omega
    · unfold slot_version
      rw [h1]
      omega
  · intro pubs
    induction pubs with
    | nil => intro st i; exact le_refl _
    | cons p rest ih =>
      intro st i
      rw [List.foldl_cons]
      exact le_trans (Nat.div_le_div_right (cache_step_mono st p.1 p.2 i))
        (ih (cache_market_data st p.1 p.2) i)

theorem cache_publish_version_witness :
    ((cache_market_data c3st "rb2501" emptyQuote).market_data_cache 0).sequence
      = (c3st.market_data_cache 0).sequence + 2 :=
  (cache_publish_version.1 c3st "rb2501" emptyQuote 0 (by decide)).1

theorem apply_conn_op_card (c : CTPConnection) (op : ConnOp)
    (h : c.subscribed_instruments.card ≤ c.max_subscriptions) :
    (apply_conn_op c op).subscribed_instruments.card ≤ (apply_conn_op c op).max_subscriptions ∧
    (apply_conn_op c op).max_subscriptions = c.max_subscriptions := by
  cases op with
  | sub i w =>
    simp only [apply_conn_op, subscribe_instrument]
    split_ifs <;>
    first
    | exact ⟨h, rfl⟩
    | (refine ⟨?_, rfl⟩
       have hle1 := Finset.card_insert_le i c.subscribed_instruments
       dsimp only
       omega)
  | unsub i w =>
    simp only [apply_conn_op, unsubscribe_instrument]
    split_ifs <;>
    first
    | exact ⟨h, rfl⟩
    | (refine ⟨?_, rfl⟩
       have hle2 : (c.subscribed_instruments.erase i).card ≤ c.subscribed_instruments.card :=
         Finset.card_erase_le
       dsimp only
       omega)

/-- Claim C6 (corrected): subscribe_instrument rejects without a wire
call when the connection is not LOGGED_IN, and when the instrument is
not yet subscribed but the set is at capacity; a repeated subscribe of
an already-subscribed instrument returns true without a wire call even
at capacity (this branch precedes the capacity test, contradicting the
claim's unconditional capacity rejection); the bound card <=
max_subscriptions is preserved by every sequence of subscribe and
unsubscribe operations. -/
theorem subscribe_capacity_bound :
    (∀ (c : CTPConnection) (inst : String) (w : Bool),
        c.status ≠ ConnStatus.LOGGED_IN → subscribe_instrument c inst w = (c, false, [])) ∧
    (∀ (c : CTPConnection) (inst : String) (w : Bool),
        c.status = ConnStatus.LOGGED_IN → inst ∈ c.subscribed_instruments →
        subscribe_instrument c inst w = (c, true, [])) ∧
    (∀ (c : CTPConnection) (inst : String) (w : Bool),
        c.status = ConnStatus.LOGGED_IN → inst ∉ c.subscribed_instruments →
        c.max_subscriptions ≤ c.subscribed_instruments.card →
        subscribe_instrument c inst w = (c, false, [])) ∧
    (∀ (c : CTPConnection) (ops : List ConnOp),
        c.subscribed_instruments.card ≤ c.max_subscriptions →
        (ops.foldl apply_conn_op c).subscribed_instruments.card
          ≤ (ops.foldl apply_conn_op c).max_subscriptions) := by
  refine ⟨?_, ?_, ?_, ?_⟩
  · intro c inst w h
    simp [subscribe_instrument, h]
  · intro c inst w h1 h2
    simp [subscribe_instrument, h1, h2]
  · intro c inst w h1 h2 h3
    simp [subscribe_instrument, h1, h2, Nat.not_lt.2 h3, h3]
  · intro c ops
    induction ops generalizing c with
    | nil => intro h; exact h
    | cons op rest ih =>
      intro h
      rw [List.foldl_cons]
      have hstep := apply_conn_op_card c op h
      exact ih (apply_conn_op c op) (hstep.2 ▸ hstep.1)

/-- Claim C6 counterexample: a LOGGED_IN connection at capacity
(max_subscriptions = 1, one subscribed instrument) accepts a repeated
subscribe of that instrument with true and no wire call - the claim
demanded false whenever the set already has max_subscriptions
elements. -/
theorem subscribe_at_capacity_counterexample :
    subscribe_instrument c6full "rb2501" true = (c6full, true, []) ∧
    c6full.max_subscriptions ≤ c6full.subscribed_instruments.card := by
  constructor
  · simp [subscribe_instrument, c6full]
  · simp [c6full]

theorem subscribe_capacity_bound_witness :
    subscribe_instrument c6idle "rb2501" true = (c6idle, false, []) :=
  subscribe_capacity_bound.1 c6idle "rb2501" true (by simp [c6idle])

/-- Claim C8 (code_bug): the retry policy promises a FAILED record is
re-enqueued at most max_retry_count (3) times, but no synchronous-failure
path increments retry_count.  Starting from one FAILED record with
retry_count 0 already queued and no available connection, four
consecutive maintenance drains each re-enqueue the record (four
re-enqueues > 3) and its retry_count is still 0 afterwards, so it will
be re-enqueued on every future drain as well. -/
theorem retry_drain_unbounded :
    (drain1 c8st).retry_set = ["rb2501"] ∧
    (drain1 (drain1 c8st)).retry_set = ["rb2501"] ∧
    (drain1 (drain1 (drain1 c8st))).retry_set = ["rb2501"] ∧
    (drain1 (drain1 (drain1 (drain1 c8st)))).retry_set = ["rb2501"] ∧
    (lookupA (drain1 (drain1 (drain1 (drain1 c8st)))).global_subscriptions "rb2501").map
        SubscriptionInfo.retry_count = some 0 := by
  refine ⟨rfl, rfl, rfl, rfl, rfl⟩

theorem c5_first_add (i s : String) :
    add_subscription c5st0 s i true = (c5mid i {s} [(s, {i})], true, [WireCall.sub "c1" i]) := by
  simp [add_subscription, c5st0, c5mid, c5conn, add_session_instrument, lookupA,
    select_connection_round_robin, available_connections, can_accept_more_subscriptions,
    execute_subscription, get_connection, set_connection, subscribe_instrument, updateA]

theorem c5_add_existing (i s : String) (S : Finset String)
    (sess : List (String × Finset String)) :
    add_subscription (c5mid i S sess) s i true
      = (c5mid i (insert s S) (add_session_instrument sess s i), true, []) := by
  simp [add_subscription, c5mid, lookupA, updateA]

theorem c5_remove (i s : String) (S : Finset String)
    (sess : List (String × Finset String)) :
    remove_subscription (c5mid i S sess) s i true
      = if S.erase s = ∅
        then (c5done (remove_session_instrument sess s i), true, [WireCall.unsub "c1" i])
        else (c5mid i (S.erase s) (remove_session_instrument sess s i), true, []) := by
  by_cases he : S.erase s = ∅ <;>
    simp [remove_subscription, c5mid, c5done, c5conn, lookupA, updateA, eraseA,
      execute_unsubscription, get_connection, unsubscribe_instrument, set_connection, he]

theorem c5_add_fold (i : String) (rest : List String) :
    ∀ (S : Finset String) (sess : List (String × Finset String)) (w0 : List WireCall),
    ∃ sess1, rest.foldl (fun acc s =>
        let r := add_subscription acc.1 s i true
        (r.1, acc.2 ++ r.2.2)) (c5mid i S sess, w0)
      = (c5mid i (S ∪ rest.toFinset) sess1, w0) := by
  induction rest with
  | nil =>
    intro S sess w0
    exact ⟨sess, by simp⟩
  | cons s rest ih =>
    intro S sess w0
    rw [List.foldl_cons]
    obtain ⟨sess1, hs⟩ := ih (insert s S) (add_session_instrument sess s i) w0
    refine ⟨sess1, ?_⟩
    simp only [c5_add_existing, List.append_nil]
    rw [hs]
    simp [List.toFinset_cons, Finset.union_insert, Finset.insert_union]

theorem c5_remove_fold (i : String) (ss : List String) :
    ∀ (sess : List (String × Finset String)) (w0 : List WireCall),
    ss ≠ [] → ss.Nodup →
    ∃ sess1, ss.foldl (fun acc s =>
        let r := remove_subscription acc.1 s i true
        (r.1, acc.2 ++ r.2.2)) (c5mid i ss.toFinset sess, w0)
      = (c5done sess1, w0 ++ [WireCall.unsub "c1" i]) := by
  induction ss with
  | nil => intro sess w0 h; exact absurd rfl h
  | cons s rest ih =>
    intro sess w0 _ hnd
    have hnotmem : s ∉ rest := (List.nodup_cons.1 hnd).1
    have hnd2 : rest.Nodup := (List.nodup_cons.1 hnd).2
    have herase : ((s :: rest).toFinset).erase s = rest.toFinset := by
      rw [List.toFinset_cons]
      exact Finset.erase_insert (by simpa using hnotmem)
    rw [List.foldl_cons]
    rcases eq_or_ne rest [] with hr | hr
    · subst hr
      have he : ((s :: ([] : List String)).toFinset).erase s = ∅ := by
        rw [herase]
        simp
      simp only [c5_remove, he, if_pos, List.foldl_nil]
      exact ⟨remove_session_instrument sess s i, rfl⟩
    · have hne2 : rest.toFinset ≠ ∅ := by
        simpa [List.toFinset_eq_empty_iff] using hr
      simp only [c5_remove, herase, if_neg hne2, List.append_nil]
      exact ih (remove_session_instrument sess s i) w0 hr hnd2

/-- Claim C5 (confirmed): when a SubscriptionRecord already exists,
add_subscription only inserts the session and acks with no upstream
call; remove_subscription leaves the record (and issues no wire call)
while requesting_sessions stays nonempty; and starting from an empty
dispatcher with one available connection, any nonempty duplicate-free
list of sessions subscribing the same instrument causes exactly one
upstream SubscribeMarketData call, and exactly one UnSubscribeMarketData
call once all of them have removed it - after which the record is
gone. -/
theorem subscription_dedup :
    (∀ (st : DispatcherState) (s inst : String) (w : Bool) (info : SubscriptionInfo),
      lookupA st.global_subscriptions inst = some info →
      add_subscription st s inst w
        = ({ st with
              global_subscriptions := updateA st.global_subscriptions inst (fun i2 => { i2 with requesting_sessions := insert s i2.requesting_sessions }),
              session_subscriptions := add_session_instrument st.session_subscriptions s inst },
           true, [])) ∧
    (∀ (st : DispatcherState) (s inst : String) (w : Bool) (info : SubscriptionInfo),
      lookupA st.global_subscriptions inst = some info →
      info.requesting_sessions.erase s ≠ ∅ →
      remove_subscription st s inst w
        = ({ st with
              session_subscriptions := remove_session_instrument st.session_subscriptions s inst,
              global_subscriptions := updateA st.global_subscriptions inst (fun _ => { info with requesting_sessions := info.requesting_sessions.erase s }) },
           true, [])) ∧
    (∀ (sessions : List String) (i : String), sessions ≠ [] → sessions.Nodup →
      (add_all c5st0 sessions i).2 = [WireCall.sub "c1" i] ∧
      (remove_all (add_all c5st0 sessions i).1 sessions i).2 = [WireCall.unsub "c1" i] ∧
      lookupA (remove_all (add_all c5st0 sessions i).1 sessions i).1.global_subscriptions i
        = none) := by
  refine ⟨?_, ?_, ?_⟩
  · intro st s inst w info h
    unfold add_subscription
    rw [h]
  · intro st s inst w info h hne
    unfold remove_subscription
    dsimp only
    rw [h]
    dsimp only
    rw [if_neg hne]
  · intro sessions i hne hnd
    rcases sessions with _ | ⟨s, rest⟩
    · exact absurd rfl hne
    have hnotmem : s ∉ rest := (List.nodup_cons.1 hnd).1
    have haddall : ∃ sess1,
        add_all c5st0 (s :: rest) i
          = (c5mid i ((s :: rest).toFinset) sess1, [WireCall.sub "c1" i]) := by
      unfold add_all
      rw [List.foldl_cons]
      obtain ⟨sess1, hs⟩ := c5_add_fold i rest {s} [(s, {i})] ([] ++ [WireCall.sub "c1" i])
      refine ⟨sess1, ?_⟩
      simp only [c5_first_add]
      rw [hs]
      have hu : ({s} : Finset String) ∪ rest.toFinset = insert s rest.toFinset := by
        ext x
        simp
      rw [List.toFinset_cons, hu]
      rfl
    obtain ⟨sess1, hadd⟩ := haddall
    obtain ⟨sess2, hrem⟩ := c5_remove_fold i (s :: rest) sess1 [] hne hnd
    refine ⟨?_, ?_, ?_⟩
    · rw [hadd]
    · unfold remove_all
      rw [hadd]
      simp only at hrem ⊢
      rw [hrem]
      rfl
    · unfold remove_all
      rw [hadd]
      simp only at hrem ⊢
      rw [hrem]
      rfl

theorem subscription_dedup_witness :
    (add_all c5st0 ["sessA", "sessB"] "cu2501").2 = [WireCall.sub "c1" "cu2501"] :=
  (subscription_dedup.2.2 ["sessA", "sessB"] "cu2501" (by decide) (by decide)).1

theorem lookupA_mem {α : Type} (l : List (String × α)) (k : String) (v : α)
    (h : lookupA l k = some v) : (k, v) ∈ l := by
  induction l with
  | nil => exact absurd h (by simp [lookupA])
  | cons p t ih =>
    obtain ⟨k1, v1⟩ := p
    by_cases hk : k1 = k
    · subst hk
      simp only [lookupA, if_pos rfl] at h
      obtain rfl : v1 = v := by simpa using h
      exact List.mem_cons_self _ _
    · simp only [lookupA, if_neg hk] at h
      exact List.mem_cons_of_mem _ (ih h)

theorem mem_updateA {α : Type} {l : List (String × α)} {k : String} {f : α → α}
    {q : String × α} (h : q ∈ updateA l k f) : q ∈ l ∨ ∃ v, q = (k, f v) := by
  rcases List.mem_map.1 h with ⟨p, hp, he⟩
  by_cases hc : p.1 = k
  · right
    exact ⟨p.2, by rw [← he]; simp [hc]⟩
  · left
    rw [← he]
    simpa [hc] using hp


theorem lookupA_updateA_self {α : Type} (l : List (String × α)) (k : String) (f : α → α)
    (v : α) (h : lookupA l k = some v) : lookupA (updateA l k f) k = some (f v) := by
  induction l with
  | nil => exact absurd h (by simp [lookupA])
  | cons p t ih =>
    obtain ⟨k1, v1⟩ := p
    by_cases hk : k1 = k
    · subst hk
      simp only [lookupA, if_pos rfl] at h
      obtain rfl : v1 = v := by simpa using h
      simp [updateA, lookupA]
    · simp only [lookupA, if_neg hk] at h
      simp only [updateA, List.map_cons, lookupA, if_neg hk]
      exact ih h

theorem lookupA_updateA_ne {α : Type} (l : List (String × α)) (k k2 : String) (f : α → α)
    (h : k2 ≠ k) : lookupA (updateA l k f) k2 = lookupA l k2 := by
  induction l with
  | nil => rfl
  | cons p t ih =>
    obtain ⟨k1, v1⟩ := p
    by_cases hk2 : k1 = k2
    · have hk : k1 ≠ k := by rw [hk2]; exact h
      simp only [updateA, List.map_cons, lookupA, if_pos hk2, if_neg hk]
    · simp only [updateA, List.map_cons, lookupA, if_neg hk2]
      simpa [updateA] using ih

theorem lookupA_mark (l : List (String × SubscriptionInfo)) (cid k : String) :
    lookupA (l.map fun p =>
        (p.1, if p.2.assigned_connection_id = cid ∧ p.2.status = SubStatus.ACTIVE then
          { p.2 with status := SubStatus.FAILED } else p.2)) k
      = (lookupA l k).map (fun v =>
          if v.assigned_connection_id = cid ∧ v.status = SubStatus.ACTIVE then
            { v with status := SubStatus.FAILED } else v) := by
  induction l with
  | nil => rfl
  | cons p t ih =>
    obtain ⟨k1, v1⟩ := p
    by_cases hk : k1 = k <;> simp [lookupA, hk, ih]

theorem mem_insertL {l : List String} {x y : String} (h : x ∈ l) : x ∈ insertL l y := by
  unfold insertL
  split
  · exact h
  · exact List.mem_append_left _ h

theorem self_mem_insertL (l : List String) (x : String) : x ∈ insertL l x := by
  unfold insertL
  split
  · assumption
  · simp

theorem select_components (st : DispatcherState) :
    (select_connection_round_robin st).1.global_subscriptions = st.global_subscriptions ∧
    (select_connection_round_robin st).1.retry_set = st.retry_set ∧
    (select_connection_round_robin st).1.max_retry_count = st.max_retry_count := by
  unfold select_connection_round_robin
  by_cases h : (available_connections st.connections).isEmpty <;> simp [h]

theorem execute_components (st : DispatcherState) (inst cid : String) (w : Bool) :
    (execute_subscription st inst cid w).1.global_subscriptions = st.global_subscriptions ∧
    (execute_subscription st inst cid w).1.retry_set = st.retry_set ∧
    (execute_subscription st inst cid w).1.max_retry_count = st.max_retry_count := by
  unfold execute_subscription
  rcases h : get_connection st.connections cid with _ | c1 <;> simp [h]

theorem retry_enqueue_components (st : DispatcherState) (inst : String) :
    (retry_enqueue_if_budget st inst).global_subscriptions = st.global_subscriptions ∧
    (retry_enqueue_if_budget st inst).max_retry_count = st.max_retry_count ∧
    (∀ x, x ∈ st.retry_set → x ∈ (retry_enqueue_if_budget st inst).retry_set) := by
  unfold retry_enqueue_if_budget
  rcases h : lookupA st.global_subscriptions inst with _ | info
  · exact ⟨rfl, rfl, fun x hx => hx⟩
  · simp only
    split
    · exact ⟨rfl, rfl, fun x hx => mem_insertL hx⟩
    · exact ⟨rfl, rfl, fun x hx => hx⟩

theorem retry_enqueue_outcome (cid : String) (st : DispatcherState) (inst : String)
    (info : SubscriptionInfo) (h : lookupA st.global_subscriptions inst = some info)
    (hst : info.status = SubStatus.FAILED) :
    failover_outcome cid (retry_enqueue_if_budget st inst) inst := by
  unfold retry_enqueue_if_budget failover_outcome
  simp only [h]
  by_cases hb : info.retry_count < st.max_retry_count
  · rw [if_pos hb]
    exact ⟨info, h, Or.inr (Or.inl (self_mem_insertL _ _))⟩
  · rw [if_neg hb]
    exact ⟨info, h, Or.inr (Or.inr ⟨hst, Nat.le_of_not_lt hb⟩)⟩

theorem migrate_components (st : DispatcherState) (inst f2 t2 : String) (w : Bool) :
    (∀ k2, k2 ≠ inst →
        lookupA (migrate_subscription st inst f2 t2 w).1.global_subscriptions k2
          = lookupA st.global_subscriptions k2) ∧
    (migrate_subscription st inst f2 t2 w).1.max_retry_count = st.max_retry_count ∧
    (∀ x, x ∈ st.retry_set → x ∈ (migrate_subscription st inst f2 t2 w).1.retry_set) := by
  unfold migrate_subscription
  rcases h : lookupA st.global_subscriptions inst with _ | info
  · exact ⟨fun k2 _ => rfl, rfl, fun x hx => hx⟩
  · simp only
    set info1 : SubscriptionInfo := { info with assigned_connection_id := t2, status := SubStatus.SUBSCRIBING, retry_count := 0 } with hinfo1
    set st1 : DispatcherState := { st with global_subscriptions := updateA st.global_subscriptions inst fun _ => info1 } with hst1
    have hex := execute_components st1 inst t2 w
    have hg1 : ∀ k2, k2 ≠ inst →
        lookupA st1.global_subscriptions k2 = lookupA st.global_subscriptions k2 := by
      intro k2 hk2
      rw [hst1]
      dsimp only
      exact lookupA_updateA_ne _ _ _ _ hk2
    have hr1 : st1.retry_set = st.retry_set := by rw [hst1]
    have hm1 : st1.max_retry_count = st.max_retry_count := by rw [hst1]
    by_cases hw : (execute_subscription st1 inst t2 w).2.1 = true
    · rw [if_pos hw]
      refine ⟨?_, ?_, ?_⟩
      · intro k2 hk2
        rw [hex.1]
        exact hg1 k2 hk2
      · rw [hex.2.2, hm1]
      · intro x hx
        rw [hex.2.1, hr1]
        exact hx
    · rw [if_neg hw]
      split
      · refine ⟨?_, ?_, ?_⟩
        · intro k2 hk2
          rw [lookupA_updateA_ne _ _ _ _ hk2, hex.1]
          exact hg1 k2 hk2
        · rw [hex.2.2, hm1]
        · intro x hx
          refine mem_insertL ?_
          rw [hex.2.1, hr1]
          exact hx
      · refine ⟨?_, ?_, ?_⟩
        · intro k2 hk2
          rw [lookupA_updateA_ne _ _ _ _ hk2, hex.1]
          exact hg1 k2 hk2
        · rw [hex.2.2, hm1]
        · intro x hx
          rw [hex.2.1, hr1]
          exact hx

theorem migrate_outcome (cid : String) (st : DispatcherState) (inst f2 t2 : String)
    (w : Bool) (info : SubscriptionInfo)
    (h : lookupA st.global_subscriptions inst = some info) (ht : t2 ≠ cid) :
    failover_outcome cid (migrate_subscription st inst f2 t2 w).1 inst := by
  unfold migrate_subscription failover_outcome
  simp only [h]
  set info1 : SubscriptionInfo := { info with assigned_connection_id := t2, status := SubStatus.SUBSCRIBING, retry_count := 0 } with hinfo1
  set st1 : DispatcherState := { st with global_subscriptions := updateA st.global_subscriptions inst fun _ => info1 } with hst1
  have hl1 : lookupA st1.global_subscriptions inst = some info1 := by
    rw [hst1]
    dsimp only
    exact lookupA_updateA_self _ _ _ _ h
  have hex := execute_components st1 inst t2 w
  by_cases hw : (execute_subscription st1 inst t2 w).2.1 = true
  · rw [if_pos hw]
    refine ⟨info1, ?_, Or.inl ⟨rfl, ht⟩⟩
    rw [hex.1]
    exact hl1
  · rw [if_neg hw]
    have hl2 : lookupA (updateA (execute_subscription st1 inst t2 w).1.global_subscriptions
        inst fun i2 => { i2 with status := SubStatus.FAILED }) inst
        = some { info1 with status := SubStatus.FAILED } := by
      have hli : lookupA (execute_subscription st1 inst t2 w).1.global_subscriptions inst
          = some info1 := by
        rw [hex.1]
        exact hl1
      exact lookupA_updateA_self _ _ _ _ hli
    split
    · exact ⟨{ info1 with status := SubStatus.FAILED }, hl2,
        Or.inr (Or.inl (self_mem_insertL _ _))⟩
    · rename_i hb
      refine ⟨{ info1 with status := SubStatus.FAILED }, hl2, Or.inr (Or.inr ⟨rfl, ?_⟩)⟩
      have h0 := Nat.le_of_not_lt hb
      simpa using h0

theorem failure_step_components (cid : String) (w : String → String → Bool)
    (acc : DispatcherState × List WireCall) (inst2 : String) :
    (∀ k2, k2 ≠ inst2 →
        lookupA ((failure_step cid w acc inst2).1).global_subscriptions k2
          = lookupA acc.1.global_subscriptions k2) ∧
    (failure_step cid w acc inst2).1.max_retry_count = acc.1.max_retry_count ∧
    (∀ x, x ∈ acc.1.retry_set → x ∈ (failure_step cid w acc inst2).1.retry_set) := by
  unfold failure_step
  have hsel := select_components acc.1
  rcases hs : (select_connection_round_robin acc.1).2 with _ | best
  · simp only [hs]
    have hre := retry_enqueue_components (select_connection_round_robin acc.1).1 inst2
    refine ⟨?_, ?_, ?_⟩
    · intro k2 _
      rw [hre.1, hsel.1]
    · rw [hre.2.1, hsel.2.2]
    · intro x hx
      exact hre.2.2 x (hsel.2.1.symm ▸ hx)
  · simp only [hs]
    split
    · have hmc := migrate_components (select_connection_round_robin acc.1).1 inst2 cid
        best.connection_id (w best.connection_id inst2)
      refine ⟨?_, ?_, ?_⟩
      · intro k2 hk2
        rw [hmc.1 k2 hk2, hsel.1]
      · rw [hmc.2.1, hsel.2.2]
      · intro x hx
        exact hmc.2.2 x (hsel.2.1.symm ▸ hx)
    · have hre := retry_enqueue_components (select_connection_round_robin acc.1).1 inst2
      refine ⟨?_, ?_, ?_⟩
      · intro k2 _
        rw [hre.1, hsel.1]
      · rw [hre.2.1, hsel.2.2]
      · intro x hx
        exact hre.2.2 x (hsel.2.1.symm ▸ hx)

theorem failure_step_establishes (cid : String) (w : String → String → Bool)
    (acc : DispatcherState × List WireCall) (inst : String) (infoC : SubscriptionInfo)
    (h : lookupA acc.1.global_subscriptions inst = some infoC)
    (hst : infoC.status = SubStatus.FAILED) :
    failover_outcome cid (failure_step cid w acc inst).1 inst := by
  unfold failure_step
  have hsel := select_components acc.1
  have hsk : lookupA (select_connection_round_robin acc.1).1.global_subscriptions inst
      = some infoC := by
    rw [hsel.1]
    exact h
  rcases hs : (select_connection_round_robin acc.1).2 with _ | best
  · simp only [hs]
    exact retry_enqueue_outcome cid _ inst infoC hsk hst
  · simp only [hs]
    split
    · rename_i hbc
      exact migrate_outcome cid _ inst cid best.connection_id _ infoC hsk hbc
    · exact retry_enqueue_outcome cid _ inst infoC hsk hst

theorem failover_outcome_mono (cid : String) (w : String → String → Bool)
    (acc : DispatcherState × List WireCall) (inst2 inst : String) (hne : inst ≠ inst2)
    (hP : failover_outcome cid acc.1 inst) :
    failover_outcome cid (failure_step cid w acc inst2).1 inst := by
  obtain ⟨info1, hl, hd⟩ := hP
  have hc := failure_step_components cid w acc inst2
  refine ⟨info1, ?_, ?_⟩
  · rw [hc.1 inst hne]
    exact hl
  · rcases hd with h1 | h2 | h3
    · exact Or.inl h1
    · exact Or.inr (Or.inl (hc.2.2 _ h2))
    · exact Or.inr (Or.inr ⟨h3.1, by rw [hc.2.1]; exact h3.2⟩)

theorem failover_fold_preserve (cid : String) (w : String → String → Bool) (inst : String) :
    ∀ (l : List String) (acc : DispatcherState × List WireCall),
    (∀ x ∈ l, x ≠ inst) → failover_outcome cid acc.1 inst →
    failover_outcome cid (l.foldl (failure_step cid w) acc).1 inst := by
  intro l
  induction l with
  | nil => intro acc _ h; exact h
  | cons a t ih =>
    intro acc hx hP
    rw [List.foldl_cons]
    refine ih _ (fun x hxt => hx x (List.mem_cons_of_mem _ hxt)) ?_
    exact failover_outcome_mono cid w acc a inst
      (fun hh => hx a (List.mem_cons_self _ _) hh.symm) hP

theorem failover_fold (cid : String) (w : String → String → Bool) (inst : String) :
    ∀ (l : List String) (acc : DispatcherState × List WireCall),
    l.Nodup → inst ∈ l →
    (∃ infoC, lookupA acc.1.global_subscriptions inst = some infoC ∧
      infoC.status = SubStatus.FAILED) →
    failover_outcome cid (l.foldl (failure_step cid w) acc).1 inst := by
  intro l
  induction l with
  | nil => intro acc _ hmem _; exact absurd hmem (List.not_mem_nil _)
  | cons a t ih =>
    intro acc hnd hmem hC
    obtain ⟨infoC, hl, hf⟩ := hC
    rw [List.foldl_cons]
    rcases eq_or_ne inst a with rfl | hne
    · have hest := failure_step_establishes cid w acc inst infoC hl hf
      refine failover_fold_preserve cid w inst t _ ?_ hest
      intro x hxt hxeq
      exact (List.nodup_cons.1 hnd).1 (hxeq ▸ hxt)
    · have hc := failure_step_components cid w acc a
      refine ih _ (List.nodup_cons.1 hnd).2 ((List.mem_cons.1 hmem).resolve_left hne) ?_
      exact ⟨infoC, by rw [hc.1 inst hne]; exact hl, hf⟩

theorem noBad_migrate (cid : String) (st : DispatcherState) (inst f2 t2 : String) (w : Bool)
    (h : ∀ p ∈ st.global_subscriptions,
      ¬(p.2.status = SubStatus.ACTIVE ∧ p.2.assigned_connection_id = cid)) :
    ∀ p ∈ (migrate_subscription st inst f2 t2 w).1.global_subscriptions,
      ¬(p.2.status = SubStatus.ACTIVE ∧ p.2.assigned_connection_id = cid) := by
  unfold migrate_subscription
  rcases hL : lookupA st.global_subscriptions inst with _ | info
  · exact h
  · simp only
    set info1 : SubscriptionInfo := { info with assigned_connection_id := t2, status := SubStatus.SUBSCRIBING, retry_count := 0 } with hinfo1
    set st1 : DispatcherState := { st with global_subscriptions := updateA st.global_subscriptions inst fun _ => info1 } with hst1
    have hg : (execute_subscription st1 inst t2 w).1.global_subscriptions
        = updateA st.global_subscriptions inst fun _ => info1 := by
      rw [(execute_components st1 inst t2 w).1, hst1]
    by_cases hw : (execute_subscription st1 inst t2 w).2.1 = true
    · rw [if_pos hw]
      intro p hp
      rw [hg] at hp
      rcases mem_updateA hp with hmem | ⟨v, rfl⟩
      · exact h p hmem
      · rw [hinfo1]
        simp
    · rw [if_neg hw]
      have hstep : ∀ p ∈ updateA (execute_subscription st1 inst t2 w).1.global_subscriptions
          inst (fun i2 => { i2 with status := SubStatus.FAILED }),
          ¬(p.2.status = SubStatus.ACTIVE ∧ p.2.assigned_connection_id = cid) := by
        intro p hp
        rcases mem_updateA hp with hmem | ⟨v, rfl⟩
        · rw [hg] at hmem
          rcases mem_updateA hmem with hmem2 | ⟨v2, rfl⟩
          · exact h p hmem2
          · rw [hinfo1]
            simp
        · simp
      split
      · exact hstep
      · exact hstep

theorem noBad_step (cid : String) (w : String → String → Bool)
    (acc : DispatcherState × List WireCall) (inst2 : String)
    (h : ∀ p ∈ acc.1.global_subscriptions,
      ¬(p.2.status = SubStatus.ACTIVE ∧ p.2.assigned_connection_id = cid)) :
    ∀ p ∈ (failure_step cid w acc inst2).1.global_subscriptions,
      ¬(p.2.status = SubStatus.ACTIVE ∧ p.2.assigned_connection_id = cid) := by
  unfold failure_step
  have hsel := select_components acc.1
  have hsg : ∀ p ∈ (select_connection_round_robin acc.1).1.global_subscriptions,
      ¬(p.2.status = SubStatus.ACTIVE ∧ p.2.assigned_connection_id = cid) := by
    rw [hsel.1]
    exact h
  rcases hs : (select_connection_round_robin acc.1).2 with _ | best
  · simp only [hs]
    rw [(retry_enqueue_components _ _).1]
    exact hsg
  · simp only [hs]
    split
    · exact noBad_migrate cid _ inst2 cid best.connection_id _ hsg
    · rw [(retry_enqueue_components _ _).1]
      exact hsg

theorem noBad_fold (cid : String) (w : String → String → Bool) :
    ∀ (l : List String) (acc : DispatcherState × List WireCall),
    (∀ p ∈ acc.1.global_subscriptions,
      ¬(p.2.status = SubStatus.ACTIVE ∧ p.2.assigned_connection_id = cid)) →
    ∀ p ∈ (l.foldl (failure_step cid w) acc).1.global_subscriptions,
      ¬(p.2.status = SubStatus.ACTIVE ∧ p.2.assigned_connection_id = cid) := by
  intro l
  induction l with
  | nil => intro acc h; exact h
  | cons a t ih =>
    intro acc h
    rw [List.foldl_cons]
    exact ih _ (noBad_step cid w acc a h)

/-- Claim C7 (corrected): when a connection fails, every subscription
assigned to it is first marked FAILED, and afterwards no record is left
ACTIVE on the failed connection; each affected instrument is either
migrated (SUBSCRIBING on a different connection), or queued in the retry
set, or — when its retry budget is already exhausted — left FAILED and
abandoned.  The unconditional migrate-or-queue reading of the claim is
refuted by the counterexample. -/
theorem failover_completeness (st : DispatcherState) (cid : String)
    (w : String → String → Bool)
    (hnd : (st.global_subscriptions.map Prod.fst).Nodup) :
    (∀ p ∈ (handle_connection_failure st cid w).1.global_subscriptions,
        ¬(p.2.status = SubStatus.ACTIVE ∧ p.2.assigned_connection_id = cid)) ∧
    (∀ inst info0, lookupA st.global_subscriptions inst = some info0 →
        info0.status = SubStatus.ACTIVE → info0.assigned_connection_id = cid →
        failover_outcome cid (handle_connection_failure st cid w).1 inst) := by
  unfold handle_connection_failure
  dsimp only
  constructor
  · intro p hp
    refine noBad_fold cid w _ _ ?_ p hp
    intro q hq
    rcases List.mem_map.1 hq with ⟨q0, hq0, rfl⟩
    dsimp only
    by_cases hC : q0.2.assigned_connection_id = cid ∧ q0.2.status = SubStatus.ACTIVE
    · rw [if_pos hC]
      simp
    · rw [if_neg hC]
      intro hbad
      exact hC ⟨hbad.2, hbad.1⟩
  · intro inst info0 hl ha hc
    have hmem : (inst, info0) ∈ st.global_subscriptions := lookupA_mem _ _ _ hl
    have haff : inst ∈ (st.global_subscriptions.filter fun p =>
        decide (p.2.assigned_connection_id = cid ∧ p.2.status = SubStatus.ACTIVE)).map Prod.fst := by
      refine List.mem_map.2 ⟨(inst, info0), List.mem_filter.2 ⟨hmem, ?_⟩, rfl⟩
      simp [hc, ha]
    have hndaff : ((st.global_subscriptions.filter fun p =>
        decide (p.2.assigned_connection_id = cid ∧ p.2.status = SubStatus.ACTIVE)).map Prod.fst).Nodup :=
      List.Nodup.sublist (List.Sublist.map Prod.fst (List.filter_sublist _)) hnd
    have hinit : lookupA ({ st with global_subscriptions := st.global_subscriptions.map fun p =>
        (p.1, if p.2.assigned_connection_id = cid ∧ p.2.status = SubStatus.ACTIVE then
          { p.2 with status := SubStatus.FAILED } else p.2) } : DispatcherState).global_subscriptions inst
        = some { info0 with status := SubStatus.FAILED } := by
      dsimp only
      rw [lookupA_mark, hl]
      simp [hc, ha]
    have hout := failover_fold cid w inst
      ((st.global_subscriptions.filter fun p =>
        decide (p.2.assigned_connection_id = cid ∧ p.2.status = SubStatus.ACTIVE)).map Prod.fst)
      ({ st with global_subscriptions := st.global_subscriptions.map fun p =>
        (p.1, if p.2.assigned_connection_id = cid ∧ p.2.status = SubStatus.ACTIVE then
          { p.2 with status := SubStatus.FAILED } else p.2) }, [])
      hndaff haff ⟨{ info0 with status := SubStatus.FAILED }, hinit, rfl⟩
    obtain ⟨i1, h1, h2⟩ := hout
    exact ⟨i1, h1, h2⟩

/-- Counterexample to the unconditional claim: an ACTIVE subscription on
the failed connection whose retry_count already equals max_retry_count
(3) is neither migrated nor queued for retry — after
handle_connection_failure it sits FAILED, still pointing at the dead
connection, and the retry set is empty. -/
theorem failover_abandoned_counterexample :
    lookupA (handle_connection_failure c7st "c1" (fun _ _ => true)).1.global_subscriptions "i1"
      = some { instrument_id := "i1", assigned_connection_id := "c1",
               status := SubStatus.FAILED, requesting_sessions := {"s1"}, retry_count := 3 } ∧
    (handle_connection_failure c7st "c1" (fun _ _ => true)).1.retry_set = [] := by
  constructor <;> rfl

/-- Witness for C7: the corrected theorem applied to the concrete state
c7st with its single affected instrument. -/
theorem failover_completeness_witness :
    failover_outcome "c1" (handle_connection_failure c7st "c1" (fun _ _ => true)).1 "i1" :=
  (failover_completeness c7st "c1" (fun _ _ => true) (by decide)).2 "i1"
    { instrument_id := "i1", assigned_connection_id := "c1", status := SubStatus.ACTIVE,
      requesting_sessions := {"s1"}, retry_count := 3 } rfl rfl rfl

end MDGW
